import Mathlib

/-!
Verification of the workflow-executor engine (`backend/app/services/executor.py`)
of the openalgo-flow repository, as a shallow embedding in Lean.

Conventions of the embedding:
* Python values are modelled by `PyValue`; Python `None` is `PyValue.none`.
* Python floats are idealized as exact rationals (`ℚ`); `str()` of a float is
  modelled by `floatRepr`.  Non-integral exponents of `**`, whose real value is
  irrational, are outside the rational idealization and modelled as an error.
* Dictionaries are association lists keyed by strings, preserving insertion
  order like Python dicts.
* A raised Python exception is an `Except.error`.
* Wall-clock dependent builtins are parametrized by a `ClockStrings` record
  holding the formatted strings `datetime.now()` would produce.
-/

deriving instance DecidableEq for Except

/-- Model of a Python runtime value as used by the executor. -/
inductive PyValue where
  | none
  | bool (b : Bool)
  | int (n : Int)
  | float (q : ℚ)
  | str (s : String)
  | dict (entries : List (String × PyValue))
  | list (items : List PyValue)

/-- Python truthiness (`if value:`): `None`, `False`, `0`, `0.0`, `""` and
empty containers are falsy. -/
def pyTruthy : PyValue → Bool
  | .none => false
  | .bool b => b
  | .int n => n != 0
  | .float q => q != 0
  | .str s => s != ("")
  | .dict entries => !entries.isEmpty
  | .list items => !items.isEmpty

/-- Decimal expansion used by `floatRepr` for non-integral rationals:
sign, integer part, and up to 12 fractional digits (truncated, trailing
zeros stripped). -/
def decimalExpand (q : ℚ) : String :=
  let sign := if q < 0 then ("-") else ("")
  let a : ℚ := |q|
  let ip : Nat := a.floor.toNat
  let frac : ℚ := a - (ip : ℚ)
  let scaled : Nat := ((frac * (10 ^ 12 : ℕ)).floor).toNat
  let raw := toString scaled
  let padded := String.mk (List.replicate (12 - raw.length) ('0')) ++ raw
  let trimmed := String.mk ((padded.data.reverse.dropWhile (fun c => c = ('0'))).reverse)
  let fracStr := if trimmed = ("") then ("0") else trimmed
  sign ++ toString ip ++ (".") ++ fracStr

/-- Model of Python `str()` on a float.  Integral floats print as `n.0`,
the rest via a fixed-precision decimal expansion (the Python shortest
round-trip repr is idealized). -/
def floatRepr (q : ℚ) : String :=
  if q.den = 1 then toString q.num ++ (".0") else decimalExpand q

mutual
/-- Model of Python `str()` on a value. -/
def pyStr : PyValue → String
  | .none => ("None")
  | .bool b => if b then ("True") else ("False")
  | .int n => toString n
  | .float q => floatRepr q
  | .str s => s
  | .dict entries => ("\x7b") ++ pyStrEntries entries ++ ("\x7d")
  | .list items => ("[") ++ pyStrItems items ++ ("]")

def pyStrEntries : List (String × PyValue) → String
  | [] => ("")
  | [(k, v)] => ("\x27") ++ k ++ ("\x27: ") ++ pyStr v
  | (k, v) :: rest => ("\x27") ++ k ++ ("\x27: ") ++ pyStr v ++ (", ") ++ pyStrEntries rest

def pyStrItems : List PyValue → String
  | [] => ("")
  | [v] => pyStr v
  | v :: rest => pyStr v ++ (", ") ++ pyStrItems rest
end

/-- Model of `dict.get(k)` with the Python default of `None` for a missing key.
A stored `None` and a missing key are indistinguishable, as in Python. -/
def pyDictGet (entries : List (String × PyValue)) (k : String) : PyValue :=
  match entries.lookup k with
  | some v => v
  | Option.none => .none

/-- Model of `dict.get(k, default)`. -/
def pyDictGetD (entries : List (String × PyValue)) (k : String) (default : PyValue) : PyValue :=
  match entries.lookup k with
  | some v => v
  | Option.none => default

/-- The formatted strings `_get_builtin_variable` derives from `datetime.now()`. -/
structure ClockStrings where
  timestamp : String
  date : String
  time : String
  year : String
  month : String
  day : String
  hour : String
  minute : String
  second : String
  weekday : String
  iso_timestamp : String

/-- Model of `WorkflowContext._get_builtin_variable`: the fixed builtin table,
`builtins.get(name)`. -/
def getBuiltinVariable (now : ClockStrings) (name : String) : Option String :=
  if name = ("timestamp") then some now.timestamp
  else if name = ("date") then some now.date
  else if name = ("time") then some now.time
  else if name = ("year") then some now.year
  else if name = ("month") then some now.month
  else if name = ("day") then some now.day
  else if name = ("hour") then some now.hour
  else if name = ("minute") then some now.minute
  else if name = ("second") then some now.second
  else if name = ("weekday") then some now.weekday
  else if name = ("iso_timestamp") then some now.iso_timestamp
  else Option.none

/-- The replacer loop of `WorkflowContext.interpolate`: descend through the
variables mapping along the dotted path.  Returns `none` exactly when the
Python code executes `return match.group(0)` (a non-dict intermediate value,
a missing key, or a `None` value at any step). -/
def descendPath : PyValue → List String → Option PyValue
  | value, [] => some value
  | value, part :: rest =>
    match value with
    | .dict entries =>
      match pyDictGet entries part with
      | .none => Option.none
      | v => descendPath v rest
    | _ => Option.none

/-- Python `var_path.split(".")` on a character list. -/
def splitDotAux (acc : List Char) : List Char → List (List Char)
  | [] => [acc.reverse]
  | c :: rest =>
    if c = ('.') then acc.reverse :: splitDotAux [] rest
    else splitDotAux (c :: acc) rest

/-- Python `str.split(".")`. -/
def splitDot (s : String) : List String :=
  (splitDotAux [] s.data).map String.mk

/-- Model of Python `str.strip()`: drop whitespace from both ends. -/
def pyStrip (s : String) : String :=
  String.mk (((s.data.dropWhile Char.isWhitespace).reverse.dropWhile Char.isWhitespace).reverse)

/-- Model of Python `str.startswith` on whole strings. -/
def strStartsWith (s pre : String) : Bool :=
  pre.data.isPrefixOf s.data

/-- The replacer of `WorkflowContext.interpolate` applied to the raw text
captured by `([^}]+)`: strip, try builtins, then descend the variables map.
`none` means the original placeholder is kept. -/
def resolveVar (now : ClockStrings) (vars : List (String × PyValue)) (raw : String) : Option String :=
  let var_path := pyStrip raw
  match getBuiltinVariable now var_path with
  | some builtin_value => some builtin_value
  | Option.none =>
    let parts := splitDot var_path
    match descendPath (.dict vars) parts with
    | some v =>
      match v with
      | .none => Option.none
      | value => some (pyStr value)
    | Option.none => Option.none

/-- Attempt to match the regex `\x7b\x7b([^\x7d]+)\x7d\x7d` at the head of the
list: two opening braces, a nonempty run of non-`\x7d` characters (the greedy
`[^\x7d]+`), and two closing braces.  Returns the captured group and the
remainder after the match. -/
def braceMatch : List Char → Option (List Char × List Char)
  | '\x7b' :: '\x7b' :: rest =>
    let inner := rest.takeWhile (fun c => c ≠ ('\x7d'))
    (match inner, rest.drop inner.length with
     | _ :: _, '\x7d' :: '\x7d' :: rest2 => some (inner, rest2)
     | _, _ => Option.none)
  | _ => Option.none

/-- One left-to-right pass of `re.sub` with pattern `\x7b\x7b([^\x7d]+)\x7d\x7d`:
at each position try the pattern; on success substitute (or keep the match
verbatim when the resolver declines) and continue after the match; on failure
emit one character and retry at the next position.  `fuel` bounds the
recursion; any `fuel ≥ l.length` is exact. -/
def interpAux (resolve : String → Option String) : Nat → List Char → List Char
  | 0, l => l
  | _ + 1, [] => []
  | fuel + 1, c :: rest =>
    match braceMatch (c :: rest) with
    | some (inner, rest2) =>
      (match resolve (String.mk inner) with
       | some repl => repl.data ++ interpAux resolve fuel rest2
       | Option.none => ('\x7b') :: ('\x7b') :: (inner ++ ('\x7d') :: ('\x7d') :: interpAux resolve fuel rest2))
    | Option.none => c :: interpAux resolve fuel rest

/-- Whether the placeholder pattern matches anywhere in the string. -/
def containsPattern (s : String) : Bool :=
  s.data.tails.any (fun t => (braceMatch t).isSome)

/-- Model of `WorkflowContext`: per-execution variables and condition-result memo. -/
structure WorkflowContext where
  vars : List (String × PyValue)
  condition_results : List (String × Bool)

/-- The empty context built by `WorkflowContext.__init__`. -/
def WorkflowContext.init : WorkflowContext := ⟨[], []⟩

/-- Python dict assignment: overwrite in place or append at the end. -/
def assocSet {κ α : Type} [DecidableEq κ] (entries : List (κ × α)) (k : κ) (v : α) : List (κ × α) :=
  match entries with
  | [] => [(k, v)]
  | (k0, v0) :: rest => if k0 = k then (k, v) :: rest else (k0, v0) :: assocSet rest k v

/-- Model of `WorkflowContext.set_variable`. -/
def WorkflowContext.set_variable (ctx : WorkflowContext) (name : String) (value : PyValue) : WorkflowContext :=
  { ctx with vars := assocSet ctx.vars name value }

/-- Model of `WorkflowContext.get_variable` with its default. -/
def WorkflowContext.get_variable (ctx : WorkflowContext) (name : String) (default : PyValue) : PyValue :=
  match ctx.vars.lookup name with
  | some v => v
  | Option.none => default

/-- Model of `WorkflowContext.set_condition_result`. -/
def WorkflowContext.set_condition_result (ctx : WorkflowContext) (node_id : String) (result : Bool) : WorkflowContext :=
  { ctx with condition_results := assocSet ctx.condition_results node_id result }

/-- Model of `WorkflowContext.get_condition_result` (`None` for a missing id). -/
def WorkflowContext.get_condition_result (ctx : WorkflowContext) (node_id : String) : Option Bool :=
  ctx.condition_results.lookup node_id

/-- Model of `WorkflowContext.interpolate` on a string. -/
def WorkflowContext.interpolate (ctx : WorkflowContext) (now : ClockStrings) (text : String) : String :=
  String.mk (interpAux (resolveVar now ctx.vars) text.data.length text.data)

/-- Model of `interpolate` on an arbitrary value: non-strings are returned unchanged. -/
def interpolateValue (ctx : WorkflowContext) (now : ClockStrings) : PyValue → PyValue
  | .str s => .str (ctx.interpolate now s)
  | v => v

/-! ## Numeric coercions (`float(...)`, `int(...)`) -/

/-- Longest digit run at the head of a character list, with its value. -/
def spanDigits : List Char → (Nat × Nat × List Char)
  | [] => (0, 0, [])
  | c :: rest =>
    if c.isDigit then
      let (count, value, remaining) := spanDigits rest
      (count + 1, (c.toNat - ('0').toNat) * 10 ^ count + value, remaining)
    else (0, 0, c :: rest)

/-- Parse an optional exponent suffix `e[+-]?digits`; `none` on malformed input. -/
def parseExponent : List Char → Option Int
  | [] => some 0
  | c :: rest =>
    if c = ('e') ∨ c = ('E') then
      match rest with
      | '+' :: ds =>
        (match spanDigits ds with
         | (count + 1, value, []) => some ((value : Int)) |>.filter (fun _ => count + 1 > 0)
         | _ => Option.none)
      | '-' :: ds =>
        (match spanDigits ds with
         | (_ + 1, value, []) => some (-(value : Int))
         | _ => Option.none)
      | ds =>
        (match spanDigits ds with
         | (_ + 1, value, []) => some ((value : Int))
         | _ => Option.none)
    else Option.none

/-- Model of Python `float(s)` on a string: optional surrounding whitespace and
sign, decimal digits with an optional point, and an optional exponent.
(`inf`/`nan` inputs are outside the rational idealization and rejected.) -/
def parseFloatStr (s : String) : Option ℚ :=
  let t := (pyStrip s).data
  let (sign, body) :=
    match t with
    | '+' :: rest => ((1 : ℚ), rest)
    | '-' :: rest => ((-1 : ℚ), rest)
    | rest => ((1 : ℚ), rest)
  let (ic, iv, afterInt) := spanDigits body
  match afterInt with
  | '.' :: fracPart =>
    let (fc, fv, afterFrac) := spanDigits fracPart
    if ic + fc = 0 then Option.none
    else
      match parseExponent afterFrac with
      | some e =>
        let mantissa : ℚ := (iv : ℚ) + (fv : ℚ) / (10 ^ fc : ℕ)
        some (sign * mantissa * ((10 : ℚ) ^ e))
      | Option.none => Option.none
  | afterInt =>
    if ic = 0 then Option.none
    else
      match parseExponent afterInt with
      | some e => some (sign * (iv : ℚ) * ((10 : ℚ) ^ e))
      | Option.none => Option.none

/-- Truncation toward zero, as Python `int()` applied to a float. -/
def ratTrunc (q : ℚ) : Int :=
  if 0 ≤ q then q.floor else -((-q).floor)

/-- Model of Python `float(value)` on a non-string value; `Except.error` is a
raised `TypeError`.  (The string case is handled at each call site, as the
source does.) -/
def pyFloat : PyValue → Except String ℚ
  | .int n => .ok (n : ℚ)
  | .float q => .ok q
  | .bool b => .ok (if b then 1 else 0)
  | .str s =>
    (match parseFloatStr s with
     | some q => .ok q
     | Option.none => .error ("ValueError"))
  | _ => .error ("TypeError")

/-- Model of Python `int(value)` on a non-string value. -/
def pyInt : PyValue → Except String Int
  | .int n => .ok n
  | .float q => .ok (ratTrunc q)
  | .bool b => .ok (if b then 1 else 0)
  | _ => .error ("TypeError")

/-! ## Typed getters (`NodeExecutor.get_str` / `get_int` / `get_float`) -/

/-- Model of `NodeExecutor.get_str`: fetch, interpolate `str(value)`, or fall back to
the default when the stored value is falsy. -/
def get_str (now : ClockStrings) (ctx : WorkflowContext) (node_data : List (String × PyValue))
    (key : String) (default : String) : String :=
  let value := pyDictGetD node_data key (.str default)
  if pyTruthy value then ctx.interpolate now (pyStr value) else default

/-- Model of `NodeExecutor.get_int`: strings are interpolated and coerced via
`int(float(...))` with the default on failure; other values use `int(value)`
when truthy (which raises on non-numeric values) and the default otherwise. -/
def get_int (now : ClockStrings) (ctx : WorkflowContext) (node_data : List (String × PyValue))
    (key : String) (default : Int) : Except String Int :=
  let value := pyDictGetD node_data key (.int default)
  match value with
  | .str s =>
    let interpolated := ctx.interpolate now s
    (match parseFloatStr interpolated with
     | some q => .ok (ratTrunc q)
     | Option.none => .ok default)
  | v => if pyTruthy v then pyInt v else .ok default

/-- Model of `NodeExecutor.get_float`: same shape as `get_int` with `float(...)`. -/
def get_float (now : ClockStrings) (ctx : WorkflowContext) (node_data : List (String × PyValue))
    (key : String) (default : ℚ) : Except String ℚ :=
  let value := pyDictGetD node_data key (.float default)
  match value with
  | .str s =>
    let interpolated := ctx.interpolate now s
    (match parseFloatStr interpolated with
     | some q => .ok q
     | Option.none => .ok default)
  | v => if pyTruthy v then pyFloat v else .ok default

/-- The parameters `execute_place_order` passes to `client.place_order`. -/
structure OrderParams where
  symbol : String
  exchange : String
  action : String
  quantity : Int
  price_type : String
  product : String
  price : ℚ
  trigger_price : ℚ
deriving DecidableEq, Repr

/-- The parameter-extraction part of `NodeExecutor.execute_place_order`
(everything before the gateway call). -/
def place_order_params (now : ClockStrings) (ctx : WorkflowContext)
    (node_data : List (String × PyValue)) : Except String OrderParams := do
  let symbol := get_str now ctx node_data ("symbol") ("")
  let exchange := get_str now ctx node_data ("exchange") ("NSE")
  let action := get_str now ctx node_data ("action") ("BUY")
  let quantity ← get_int now ctx node_data ("quantity") 1
  let price_type := get_str now ctx node_data ("priceType") ("MARKET")
  let product := get_str now ctx node_data ("product") ("MIS")
  let price ← get_float now ctx node_data ("price") 0
  let trigger_price ← get_float now ctx node_data ("triggerPrice") 0
  return ⟨symbol, exchange, action, quantity, price_type, product, price, trigger_price⟩

/-! ## The safe math evaluator (`NodeExecutor._safe_eval_math`) -/

/-- Python AST constants as they occur under `ast.parse(..., mode="eval")`. -/
inductive PyConst where
  | int (n : Int)
  | float (q : ℚ)
  | bool (b : Bool)
  | str (s : String)
  | noneConst

/-- Binary operators of the Python AST (`ast.BinOp.op`). -/
inductive PyBinOp where
  | add | sub | mult | div | mod | pow
  | floorDiv | matMult
  | bitAnd | bitOr | bitXor | lshift | rshift

/-- Unary operators of the Python AST (`ast.UnaryOp.op`). -/
inductive PyUnaryOp where
  | usub | uadd | notOp | invert

/-- Boolean operators (`ast.BoolOp.op`). -/
inductive PyBoolOp where
  | andOp | orOp

/-- Comparison operators (`ast.Compare.ops`). -/
inductive PyCmpOp where
  | eq | notEq | lt | lte | gt | gte | isOp | inOp

/-- Expression shapes produced by `ast.parse(expr, mode="eval")`.  Argument
lists of calls, comparison chains and boolean-operator chains are idealized
to a single operand — `_eval` rejects these nodes without ever inspecting
their children, so the arity is irrelevant to the evaluator behavior. -/
inductive PyExpr where
  | constant (c : PyConst)
  | name (id : String)
  | binOp (left : PyExpr) (op : PyBinOp) (right : PyExpr)
  | unaryOp (op : PyUnaryOp) (operand : PyExpr)
  | boolOp (op : PyBoolOp) (left : PyExpr) (right : PyExpr)
  | compare (left : PyExpr) (op : PyCmpOp) (right : PyExpr)
  | call (func : PyExpr) (arg : PyExpr)
  | attributeRef (obj : PyExpr) (attr : String)
  | ifExp (cond : PyExpr) (thenBranch : PyExpr) (elseBranch : PyExpr)
  | subscript (obj : PyExpr) (index : PyExpr)
  | otherNode (kind : String)

/-- The typed failures of `_safe_eval_math`.  The `unsupported*` errors are the
`ValueError` failures raised by `_eval`; `zeroDivision` is the Python `ZeroDivisionError`
(raised by the operator itself); `nonIntegralPower` marks a `**` whose real
value is irrational and hence outside the rational idealization. -/
inductive EvalErr where
  | unsupportedConstant
  | unsupportedOperator
  | unsupportedUnaryOperator
  | unsupportedType
  | zeroDivision
  | nonIntegralPower
deriving DecidableEq, Repr

/-- Model of Python `**` on numbers: exact for integral exponents
(`0 ** negative` raises `ZeroDivisionError`), and an error marker for
non-integral exponents, whose float result is irrational in general. -/
def pyPow (a b : ℚ) : Except EvalErr ℚ :=
  if b.den = 1 then
    if 0 ≤ b.num then .ok (a ^ b.num.toNat)
    else if a = 0 then .error .zeroDivision
    else .ok (a ^ b.num)
  else .error .nonIntegralPower

/-- Python `%` on numbers (floor-sign semantics): `a - b * ⌊a / b⌋`. -/
def pyMod (a b : ℚ) : Except EvalErr ℚ :=
  if b = 0 then .error .zeroDivision else .ok (a - b * ⌊a / b⌋)

/-- The recursive `_eval` inside `_safe_eval_math`.  Numeric constants pass the
`isinstance(node.value, (int, float))` check — which in Python accepts `bool`
values, `bool` being a subclass of `int` — binary and unary operators are
looked up in the fixed `operators` table after evaluating the operands, and
every other node shape raises a `ValueError`. -/
def mathEval : PyExpr → Except EvalErr ℚ
  | .constant c =>
    (match c with
     | .int n => .ok (n : ℚ)
     | .float q => .ok q
     | .bool b => .ok (if b then 1 else 0)
     | _ => .error .unsupportedConstant)
  | .binOp l op r =>
    (match mathEval l with
     | .error e => .error e
     | .ok a =>
       match mathEval r with
       | .error e => .error e
       | .ok b =>
         match op with
         | .add => .ok (a + b)
         | .sub => .ok (a - b)
         | .mult => .ok (a * b)
         | .div => if b = 0 then .error .zeroDivision else .ok (a / b)
         | .mod => pyMod a b
         | .pow => pyPow a b
         | _ => .error .unsupportedOperator)
  | .unaryOp op operand =>
    (match mathEval operand with
     | .error e => .error e
     | .ok a =>
       match op with
       | .usub => .ok (-a)
       | .uadd => .ok a
       | _ => .error .unsupportedUnaryOperator)
  | _ => .error .unsupportedType

/-- Model of `_safe_eval_math` after a successful parse: evaluate the expression body
(the final `float(...)` conversion is the identity in the rational model). -/
def _safe_eval_math (tree : PyExpr) : Except EvalErr ℚ := mathEval tree

/-- The arithmetic fragment named by the specification: int/float numeric
literals, the six binary operators, and unary plus/minus. -/
def isArithExpr : PyExpr → Bool
  | .constant (.int _) => true
  | .constant (.float _) => true
  | .binOp l op r =>
    (match op with
     | .add | .sub | .mult | .div | .mod | .pow => isArithExpr l && isArithExpr r
     | _ => false)
  | .unaryOp op operand =>
    (match op with
     | .usub | .uadd => isArithExpr operand
     | _ => false)
  | _ => false

/-- The arithmetic fragment as the code actually accepts it: additionally
`bool` constants, since `isinstance(True, int)` holds in Python. -/
def isArithOrBoolExpr : PyExpr → Bool
  | .constant (.int _) => true
  | .constant (.float _) => true
  | .constant (.bool _) => true
  | .binOp l op r =>
    (match op with
     | .add | .sub | .mult | .div | .mod | .pow => isArithOrBoolExpr l && isArithOrBoolExpr r
     | _ => false)
  | .unaryOp op operand =>
    (match op with
     | .usub | .uadd => isArithOrBoolExpr operand
     | _ => false)
  | _ => false

/-- Whether a node is one of the construct kinds the specification forbids:
identifier lookup, function call, attribute access, comparison, string
constant, bitwise operator, or control flow (boolean operators and
conditional expressions). -/
def isForbiddenHead : PyExpr → Bool
  | .name _ => true
  | .call _ _ => true
  | .attributeRef _ _ => true
  | .compare _ _ _ => true
  | .constant (.str _) => true
  | .binOp _ op _ =>
    (match op with
     | .bitAnd | .bitOr | .bitXor | .lshift | .rshift => true
     | _ => false)
  | .boolOp _ _ _ => true
  | .ifExp _ _ _ => true
  | _ => false

/-- Whether any subexpression is a forbidden construct. -/
def containsForbidden : PyExpr → Bool
  | .constant c => isForbiddenHead (.constant c)
  | .name _ => true
  | .binOp l op r =>
    isForbiddenHead (.binOp l op r) || containsForbidden l || containsForbidden r
  | .unaryOp _ operand => containsForbidden operand
  | .boolOp _ _ _ => true
  | .compare _ _ _ => true
  | .call _ _ => true
  | .attributeRef _ _ => true
  | .ifExp _ _ _ => true
  | .subscript obj index => containsForbidden obj || containsForbidden index
  | .otherNode _ => false

/-! ## Handler result envelopes and the variable / math-expression handlers -/

/-- The result dictionary returned by a node handler, restricted to the keys
the engine inspects (`status`, `message`, `condition`) plus the keys the
variable handler reports (`variable`, `value`).  `condition = none` models a
dictionary without a `condition` key. -/
structure Envelope where
  status : String
  message : Option String := Option.none
  condition : Option Bool := Option.none
  var_name : Option String := Option.none
  value : Option PyValue := Option.none

/-- An error envelope `{status: "error", message: msg}`. -/
def errorEnvelope (msg : String) : Envelope := { status := ("error"), message := some msg }

/-- Python `a or b`. -/
def pyOr (a b : PyValue) : PyValue := if pyTruthy a then a else b

/-- Dictionary keys and variable names in editor-produced graphs are strings;
other values are idealized through their `str()` form. -/
def keyOf : PyValue → String
  | .str s => s
  | v => pyStr v

/-- The `json` module, parametrized: `loads` returns `none` on a
`JSONDecodeError`, `dumps` always succeeds on engine-produced values. -/
structure JsonCodec where
  loads : String → Option PyValue
  dumps : PyValue → String

/-- Messages for the numeric-coercion exceptions caught by the inner
`except (ValueError, TypeError)` handlers of `execute_variable`. -/
def coerceTwo (cur new : Except String ℚ) : Except String (ℚ × ℚ) :=
  match cur with
  | .error e => .error e
  | .ok c =>
    match new with
    | .error e => .error e
    | .ok n => .ok (c, n)

/-- Model of `NodeExecutor.execute_variable`: the variable mini-language.  Returns the
result envelope and the updated context; every failure path returns a
`status:"error"` envelope rather than raising, mirroring the
`try`/`except` structure. -/
def execute_variable (codec : JsonCodec) (now : ClockStrings)
    (node_data : List (String × PyValue)) (ctx : WorkflowContext) : Envelope × WorkflowContext :=
  let var_name := keyOf (pyOr (pyDictGet node_data ("variableName")) (pyDictGetD node_data ("name") (.str (""))))
  let operation := keyOf (pyDictGetD node_data ("operation") (.str ("set")))
  let var_value := interpolateValue ctx now (pyDictGetD node_data ("value") (.str ("")))
  let source_var := keyOf (pyDictGetD node_data ("sourceVariable") (.str ("")))
  let successResult := fun (v : PyValue) (ctx2 : WorkflowContext) =>
    (({ status := ("success"), var_name := some var_name, value := some v } : Envelope), ctx2)
  if operation = ("set") then
    let parsed :=
      match var_value with
      | .str s =>
        if strStartsWith s ("\x7b") || strStartsWith s ("[") then
          (match codec.loads s with
           | some j => j
           | Option.none => .str s)
        else .str s
      | v => v
    successResult parsed (ctx.set_variable var_name parsed)
  else if operation = ("get") then
    let source_value := ctx.get_variable source_var (.str (""))
    let ctx2 := if var_name ≠ ("") then ctx.set_variable var_name source_value else ctx
    (({ status := ("success"), var_name := some var_name, value := some source_value } : Envelope), ctx2)
  else if operation = ("add") then
    let current := ctx.get_variable var_name (.int 0)
    (match coerceTwo (if pyTruthy current then pyFloat current else .ok 0)
                     (if pyTruthy var_value then pyFloat var_value else .ok 0) with
     | .ok (c, a) => successResult (.float (c + a)) (ctx.set_variable var_name (.float (c + a)))
     | .error e => (errorEnvelope e, ctx))
  else if operation = ("subtract") then
    let current := ctx.get_variable var_name (.int 0)
    (match coerceTwo (if pyTruthy current then pyFloat current else .ok 0)
                     (if pyTruthy var_value then pyFloat var_value else .ok 0) with
     | .ok (c, s) => successResult (.float (c - s)) (ctx.set_variable var_name (.float (c - s)))
     | .error e => (errorEnvelope e, ctx))
  else if operation = ("multiply") then
    let current := ctx.get_variable var_name (.int 0)
    (match coerceTwo (if pyTruthy current then pyFloat current else .ok 0)
                     (if pyTruthy var_value then pyFloat var_value else .ok 1) with
     | .ok (c, m) => successResult (.float (c * m)) (ctx.set_variable var_name (.float (c * m)))
     | .error e => (errorEnvelope e, ctx))
  else if operation = ("divide") then
    let current := ctx.get_variable var_name (.int 0)
    (match coerceTwo (if pyTruthy current then pyFloat current else .ok 0)
                     (if pyTruthy var_value then pyFloat var_value else .ok 1) with
     | .ok (c, d) =>
       if d = 0 then (errorEnvelope ("Division by zero"), ctx)
       else successResult (.float (c / d)) (ctx.set_variable var_name (.float (c / d)))
     | .error e => (errorEnvelope e, ctx))
  else if operation = ("increment") then
    let current := ctx.get_variable var_name (.int 0)
    (match (if pyTruthy current then pyFloat current else .ok 0) with
     | .ok c => successResult (.float (c + 1)) (ctx.set_variable var_name (.float (c + 1)))
     | .error e => (errorEnvelope e, ctx))
  else if operation = ("decrement") then
    let current := ctx.get_variable var_name (.int 0)
    (match (if pyTruthy current then pyFloat current else .ok 0) with
     | .ok c => successResult (.float (c - 1)) (ctx.set_variable var_name (.float (c - 1)))
     | .error e => (errorEnvelope e, ctx))
  else if operation = ("append") then
    let current := ctx.get_variable var_name (.str (""))
    let result := pyStr current ++ pyStr var_value
    successResult (.str result) (ctx.set_variable var_name (.str result))
  else if operation = ("parse_json") then
    (match codec.loads (pyStr var_value) with
     | some parsed => successResult parsed (ctx.set_variable var_name parsed)
     | Option.none => (errorEnvelope ("Invalid JSON"), ctx))
  else if operation = ("stringify") then
    let source_value := ctx.get_variable source_var (.dict [])
    let result := codec.dumps source_value
    successResult (.str result) (ctx.set_variable var_name (.str result))
  else
    (errorEnvelope (("Unknown operation: ") ++ operation), ctx)

/-- Rendering of the exceptions `execute_math_expression` catches. -/
def evalErrMsg : EvalErr → String
  | .unsupportedConstant => ("Unsupported constant")
  | .unsupportedOperator => ("Unsupported operator")
  | .unsupportedUnaryOperator => ("Unsupported unary operator")
  | .unsupportedType => ("Unsupported expression type")
  | .zeroDivision => ("division by zero")
  | .nonIntegralPower => ("non-integral power")

/-- Model of `NodeExecutor.execute_math_expression`, parametrized by `ast.parse`
(`parse s = none` models a `SyntaxError`).  Every failure — empty expression,
parse failure, unsupported construct, division by zero — is caught by the
`except Exception` clause of the handler and becomes a `status:"error"` envelope; the
output variable is written only on success. -/
def execute_math_expression (parse : String → Option PyExpr) (now : ClockStrings)
    (node_data : List (String × PyValue)) (ctx : WorkflowContext) : Envelope × WorkflowContext :=
  let expression := pyDictGetD node_data ("expression") (.str (""))
  let output_var := keyOf (pyDictGetD node_data ("outputVariable") (.str ("result")))
  if !pyTruthy expression then (errorEnvelope ("No expression provided"), ctx)
  else
    match interpolateValue ctx now expression with
    | .str interpolated =>
      let cleaned := pyStrip interpolated
      if cleaned = ("") then (errorEnvelope ("Empty expression"), ctx)
      else
        (match parse cleaned with
         | Option.none => (errorEnvelope ("Invalid expression syntax"), ctx)
         | some tree =>
           match _safe_eval_math tree with
           | .ok result =>
             (({ status := ("success"), value := some (.float result) } : Envelope),
              ctx.set_variable output_var (.float result))
           | .error e => (errorEnvelope (evalErrMsg e), ctx))
    | _ => (errorEnvelope ("AttributeError"), ctx)

/-! ## Options multi-leg strategy synthesis (`_build_strategy_legs`) -/

/-- One leg of a multi-leg options order, as built by `make_leg`. -/
structure Leg where
  offset : String
  option_type : String
  action : String
  quantity : Int
  expiry_date : String
  product : String
  pricetype : String
  splitsize : Int
deriving DecidableEq, Repr

/-- Model of `NodeExecutor._build_strategy_legs`: the fixed strategy table.  An
unrecognized strategy yields `[]`. -/
def _build_strategy_legs (strategy action : String) (quantity : Int)
    (expiry_date : String) (product : String) (pricetype : String) : List Leg :=
  let buy_action := ("BUY")
  let sell_action := ("SELL")
  let make_leg := fun (offset option_type leg_action : String) =>
    (⟨offset, option_type, leg_action, quantity, expiry_date, product, pricetype, 0⟩ : Leg)
  if strategy = ("straddle") then
    [make_leg ("ATM") ("CE") action, make_leg ("ATM") ("PE") action]
  else if strategy = ("strangle") then
    [make_leg ("OTM2") ("CE") action, make_leg ("OTM2") ("PE") action]
  else if strategy = ("iron_condor") then
    if action = ("SELL") then
      [make_leg ("OTM5") ("CE") sell_action, make_leg ("OTM5") ("PE") sell_action,
       make_leg ("OTM10") ("CE") buy_action, make_leg ("OTM10") ("PE") buy_action]
    else
      [make_leg ("OTM5") ("CE") buy_action, make_leg ("OTM5") ("PE") buy_action,
       make_leg ("OTM10") ("CE") sell_action, make_leg ("OTM10") ("PE") sell_action]
  else if strategy = ("iron_butterfly") then
    if action = ("SELL") then
      [make_leg ("ATM") ("CE") sell_action, make_leg ("ATM") ("PE") sell_action,
       make_leg ("OTM3") ("CE") buy_action, make_leg ("OTM3") ("PE") buy_action]
    else
      [make_leg ("ATM") ("CE") buy_action, make_leg ("ATM") ("PE") buy_action,
       make_leg ("OTM3") ("CE") sell_action, make_leg ("OTM3") ("PE") sell_action]
  else if strategy = ("bull_call_spread") then
    [make_leg ("ATM") ("CE") buy_action, make_leg ("OTM3") ("CE") sell_action]
  else if strategy = ("bear_put_spread") then
    [make_leg ("ATM") ("PE") buy_action, make_leg ("OTM3") ("PE") sell_action]
  else if strategy = ("bull_put_spread") then
    [make_leg ("ATM") ("PE") sell_action, make_leg ("OTM3") ("PE") buy_action]
  else if strategy = ("bear_call_spread") then
    [make_leg ("ATM") ("CE") sell_action, make_leg ("OTM3") ("CE") buy_action]
  else
    []

/-- The fixed lot-size mapping of `execute_options_multi_order`, with its
`.get(underlying, 75)` default. -/
def lot_size_of (underlying : String) : Int :=
  if underlying = ("NIFTY") then 75
  else if underlying = ("BANKNIFTY") then 30
  else if underlying = ("FINNIFTY") then 65
  else if underlying = ("MIDCPNIFTY") then 120
  else if underlying = ("NIFTYNXT50") then 25
  else if underlying = ("SENSEX") then 20
  else if underlying = ("BANKEX") then 30
  else if underlying = ("SENSEX50") then 25
  else 75

/-- The underlying-index / futures-and-options exchange pair chosen by
`execute_options_multi_order`: BSE-listed index underlyings use
`BSE_INDEX`/`BFO`, all others `NSE_INDEX`/`NFO`. -/
def underlying_exchange_pair (underlying : String) : String × String :=
  if underlying = ("SENSEX") ∨ underlying = ("BANKEX") ∨ underlying = ("SENSEX50") then
    (("BSE_INDEX"), ("BFO"))
  else
    (("NSE_INDEX"), ("NFO"))

/-- The plan `execute_options_multi_order` assembles before calling the
gateway. -/
structure MultiOrderPlan where
  underlying_exchange : String
  fo_exchange : String
  total_quantity : Int
  legs : List Leg
deriving DecidableEq, Repr

/-- The pure core of `NodeExecutor.execute_options_multi_order` after
parameter extraction: exchange-pair selection, lot-size scaling, expiry
resolution (whose gateway-dependent outcome is passed in as
`resolved_expiry`), and leg synthesis.  `Except.error` carries the
`status:"error"` envelope message of the corresponding early return. -/
def execute_options_multi_order_plan (underlying strategy action : String) (quantity : Int)
    (resolved_expiry : Option String) (product price_type : String) : Except String MultiOrderPlan :=
  let pair := underlying_exchange_pair underlying
  let lot_size := lot_size_of underlying
  let total_quantity := quantity * lot_size
  match resolved_expiry with
  | Option.none => .error (("Could not resolve expiry"))
  | some expiry_date =>
    let legs := _build_strategy_legs strategy action total_quantity expiry_date product price_type
    if legs.isEmpty then .error (("Unknown strategy: ") ++ strategy)
    else .ok ⟨pair.1, pair.2, total_quantity, legs⟩

/-! ## The graph traverser (`execute_node_chain`) -/

/-- An edge record; `sourceHandle = none` models an absent key. -/
structure Edge where
  source : String
  target : String
  sourceHandle : Option String
deriving DecidableEq, Repr

/-- A node record `{id, type, data}`. -/
structure Node where
  id : String
  type : String
  data : List (String × PyValue)

/-- Model of `MAX_NODE_DEPTH`: maximum recursion depth for the node chain. -/
def MAX_NODE_DEPTH : Nat := 100

/-- Model of `MAX_NODE_VISITS`: maximum total node visits per execution. -/
def MAX_NODE_VISITS : Nat := 500

/-- The errors that terminate a traversal: the two loop-protection limits and
an exception escaping a node handler (a system-level error).  `outOfFuel` is
an artifact of the fuel-based embedding, proved unreachable from the
canonical entry point. -/
inductive TravError where
  | depthExceeded
  | visitsExceeded
  | handlerRaised (msg : String)
  | outOfFuel
deriving DecidableEq, Repr

/-- Traversal state: the per-node visit counter, the workflow context, and the
execution log. -/
structure TravState where
  visited_count : List (String × Nat)
  context : WorkflowContext
  logs : List (String × String)

/-- Append a log entry (level, message). -/
def travLog (st : TravState) (level msg : String) : TravState :=
  { st with logs := st.logs ++ [(level, msg)] }

/-- Model of `sum(visited_count.values())`. -/
def visitTotal (vc : List (String × Nat)) : Nat := (vc.map Prod.snd).sum

/-- Model of `visited_count.get(node_id, 0)`. -/
def getVisit (vc : List (String × Nat)) (node_id : String) : Nat :=
  (vc.lookup node_id).getD 0

/-- Model of `edge_map`: the outgoing edges of a source node, in declared order. -/
def edge_map (edges : List Edge) (source : String) : List Edge :=
  edges.filter (fun e => e.source == source)

/-- Model of `incoming_edge_map`: the incoming edges of a target node, in declared
order. -/
def incoming_edge_map (edges : List Edge) (target : String) : List Edge :=
  edges.filter (fun e => e.target == target)

/-- Gate-input collection: for each incoming edge, look up the stored
condition result of its source; drop the `None`s. -/
def gate_input_results (ctx : WorkflowContext) (incoming : List Edge) : List Bool :=
  incoming.filterMap (fun e => ctx.get_condition_result e.source)

/-- Model of `NodeExecutor.execute_and_gate`. -/
def execute_and_gate (input_results : List Bool) : Envelope :=
  if input_results.isEmpty then { status := ("success"), condition := some false }
  else { status := ("success"), condition := some (input_results.all (fun b => b)) }

/-- Model of `NodeExecutor.execute_or_gate`. -/
def execute_or_gate (input_results : List Bool) : Envelope :=
  if input_results.isEmpty then { status := ("success"), condition := some false }
  else { status := ("success"), condition := some (input_results.any (fun b => b)) }

/-- Model of `NodeExecutor.execute_not_gate`. -/
def execute_not_gate (input_results : List Bool) : Envelope :=
  if input_results.isEmpty then { status := ("success"), condition := some true }
  else { status := ("success"), condition := some (!(input_results.headD false)) }

/-- The edge filter applied when a handler result carries a condition:
keep `yes`-labelled edges iff the condition is true, `no`-labelled edges iff
it is false, and always keep edges whose `sourceHandle` (defaulted to `""`)
is neither `"yes"` nor `"no"`. -/
def filter_condition_edges (condition_met : Bool) (edges : List Edge) : List Edge :=
  edges.filter (fun e =>
    let source_handle := e.sourceHandle.getD ("")
    (condition_met && source_handle == ("yes")) ||
    (!condition_met && source_handle == ("no")) ||
    (source_handle != ("yes") && source_handle != ("no")))

/-- The condition-routing step of `execute_node_chain`: when the handler
result carries a `condition` key, store it in the context and filter the
outgoing edges; otherwise pass everything through. -/
def apply_condition_routing (node_id : String) (result : Option Envelope)
    (ctx : WorkflowContext) (edges_to_follow : List Edge) : WorkflowContext × List Edge :=
  match result with
  | some env =>
    (match env.condition with
     | some condition_met =>
       (ctx.set_condition_result node_id condition_met, filter_condition_edges condition_met edges_to_follow)
     | Option.none => (ctx, edges_to_follow))
  | Option.none => (ctx, edges_to_follow)

/-- The node kinds the `elif` chain routes to a `NodeExecutor` method
(everything except `start`, `group`, the three gates, and unknown kinds). -/
def knownHandlerTypes : List String :=
  [("placeOrder"), ("smartOrder"), ("optionsOrder"), ("optionsMultiOrder"), ("basketOrder"),
   ("splitOrder"), ("modifyOrder"), ("cancelOrder"), ("cancelAllOrders"), ("closePositions"),
   ("getQuote"), ("multiQuotes"), ("getDepth"), ("getOrderStatus"), ("openPosition"),
   ("history"), ("expiry"), ("symbol"), ("optionSymbol"), ("orderBook"), ("tradeBook"),
   ("positionBook"), ("syntheticFuture"), ("optionChain"), ("holidays"), ("timings"),
   ("subscribeLtp"), ("subscribeQuote"), ("subscribeDepth"), ("unsubscribe"),
   ("holdings"), ("funds"), ("margin"), ("telegramAlert"), ("httpRequest"),
   ("delay"), ("waitUntil"), ("log"), ("variable"), ("mathExpression"),
   ("positionCheck"), ("fundCheck"), ("priceCondition"), ("timeWindow"),
   ("timeCondition"), ("priceAlert")]

/-- A handler oracle: the behavior of the `NodeExecutor` method a known node
kind dispatches to.  It returns the result envelope and the updated context;
`Except.error` models an exception escaping the handler. -/
def Dispatch : Type := Node → WorkflowContext → Except String (Envelope × WorkflowContext)

/-- The per-node dispatch section of `execute_node_chain`: `start` logs and
produces no result, `group` is a pass-through, the three gates compute from
stored condition results, known kinds go to the handler oracle, and unknown
kinds log a warning and produce no result. -/
def node_step (dispatch : Dispatch) (incoming : List Edge) (node : Node) (st : TravState) :
    Except String (Option Envelope × TravState) :=
  if node.type == ("start") then
    .ok (Option.none, travLog st ("info") ("Workflow started"))
  else if node.type == ("group") then
    .ok (Option.none, st)
  else if node.type == ("andGate") then
    .ok (some (execute_and_gate (gate_input_results st.context incoming)), st)
  else if node.type == ("orGate") then
    .ok (some (execute_or_gate (gate_input_results st.context incoming)), st)
  else if node.type == ("notGate") then
    .ok (some (execute_not_gate (gate_input_results st.context incoming)), st)
  else if knownHandlerTypes.contains node.type then
    (match dispatch node st.context with
     | .ok (env, ctx2) => .ok (some env, { st with context := ctx2 })
     | .error msg => .error msg)
  else
    .ok (Option.none, travLog st ("warning") (("Unknown node type: ") ++ node.type))

/-- The `for edge in edges_to_follow` loop: recurse into each non-empty
target in declared order, threading the state; an error aborts the loop and
propagates, as a raised exception does. -/
def follow_edges (recurse : String → Nat → TravState → Except TravError TravState) :
    List Edge → Nat → TravState → Except TravError TravState
  | [], _, st => .ok st
  | e :: rest, depth, st =>
    if e.target == ("") then follow_edges recurse rest depth st
    else
      match recurse e.target depth st with
      | .ok st2 => follow_edges recurse rest depth st2
      | .error err => .error err

/-- Model of `execute_node_chain`: check the depth limit, check the total-visits
limit, count the visit (warning past 10 visits of one node), look up the
node (silently returning when absent), dispatch it, apply condition routing,
and recurse into the selected outgoing edges at `depth + 1`.  The `fuel`
parameter makes the recursion structural; it strictly dominates the depth
check, so `MAX_NODE_DEPTH + 2` units are exact for a traversal started at
depth 0. -/
def execute_node_chain (dispatch : Dispatch) (nodes : List Node) (edges : List Edge) :
    Nat → String → Nat → TravState → Except TravError TravState
  | 0, _, _, _ => .error .outOfFuel
  | fuel + 1, node_id, depth, st =>
    if depth > MAX_NODE_DEPTH then .error .depthExceeded
    else if visitTotal st.visited_count ≥ MAX_NODE_VISITS then .error .visitsExceeded
    else
      let newCount := getVisit st.visited_count node_id + 1
      let st1 := { st with visited_count := assocSet st.visited_count node_id newCount }
      let st2 :=
        if newCount > 10 then
          travLog st1 ("warning") (("Warning: Node ") ++ node_id ++ (" has been visited ") ++ toString newCount ++ (" times."))
        else st1
      match nodes.find? (fun n => n.id == node_id) with
      | Option.none => .ok st2
      | some node =>
        match node_step dispatch (incoming_edge_map edges node_id) node st2 with
        | .error msg => .error (.handlerRaised msg)
        | .ok (result, st3) =>
          let selected := apply_condition_routing node_id result st3.context (edge_map edges node_id)
          follow_edges (execute_node_chain dispatch nodes edges fuel) selected.2 (depth + 1)
            { st3 with context := selected.1 }

/-- The canonical entry: `execute_node_chain(start_id, ..., depth=0)` with
exactly enough fuel that the depth guard always fires first. -/
def run_node_chain (dispatch : Dispatch) (nodes : List Node) (edges : List Edge)
    (start_id : String) (st : TravState) : Except TravError TravState :=
  execute_node_chain dispatch nodes edges (MAX_NODE_DEPTH + 2) start_id 0 st

/-! ## The execution orchestrator (`execute_workflow`) -/

/-- A workflow row: name and graph. -/
structure WorkflowDef where
  name : String
  nodes : List Node
  edges : List Edge

/-- A `WorkflowExecution` row as observable after the orchestrator returns
(the transient `running` status of the row is not observable in this
synchronous model, which runs the body to completion within the call). -/
structure ExecRecord where
  workflow_id : Int
  status : String
  error : Option String
  logs : List (String × String)

/-- Process state the orchestrator touches: the per-workflow lock map
(`_workflow_locks`, `True` = held) and the execution rows. -/
structure OrchState where
  locks : List (Int × Bool)
  executions : List ExecRecord

/-- The envelope `execute_workflow` returns. -/
structure ExecEnvelope where
  status : String
  message : String
  already_running : Bool := false
  execution_id : Option Nat := Option.none
  logs : Option (List (String × String)) := Option.none

/-- The exception message of each traversal failure. -/
def travErrMsg : TravError → String
  | .depthExceeded =>
    ("Maximum node depth (") ++ toString MAX_NODE_DEPTH ++ (") exceeded. This may indicate a circular connection in your workflow.")
  | .visitsExceeded =>
    ("Maximum node visits (") ++ toString MAX_NODE_VISITS ++ (") exceeded. This may indicate an infinite loop in your workflow.")
  | .handlerRaised msg => msg
  | .outOfFuel => ("out of fuel")

/-- Model of `execute_workflow`: the single-flight guard and execution lifecycle.
If the per-workflow lock is already held, return at once with an
`already_running` error envelope, touching nothing.  Otherwise run under the
lock: load the workflow (an unknown id returns an error without creating a
row), create the execution row, require a configured gateway client and a
start node, traverse, and finalize the row as `completed` or `failed`.
Lock acquisition and release cancel out within the call, so the lock map is
returned unchanged. -/
def execute_workflow (dispatch : Dispatch) (workflows : List (Int × WorkflowDef))
    (client_available : Bool) (workflow_id : Int) (webhook_data : Option PyValue)
    (st : OrchState) : ExecEnvelope × OrchState :=
  let lock_held := (st.locks.lookup workflow_id).getD false
  if lock_held then
    (({ status := ("error"),
        message := ("Workflow is already running. Please wait for the current execution to complete."),
        already_running := true } : ExecEnvelope), st)
  else
    match workflows.lookup workflow_id with
    | Option.none =>
      (({ status := ("error"), message := ("Workflow not found") } : ExecEnvelope), st)
    | some workflow =>
      let execution_id := st.executions.length
      let ctx0 := WorkflowContext.init
      let ctx1 :=
        match webhook_data with
        | some d => ctx0.set_variable ("webhook") d
        | Option.none => ctx0
      let logs0 : List (String × String) := [(("info"), ("Starting workflow: ") ++ workflow.name)]
      let finishFailed := fun (msg : String) (logs : List (String × String)) =>
        let logsE := logs ++ [(("error"), ("Error: ") ++ msg)]
        (({ status := ("error"), message := msg, execution_id := some execution_id,
            logs := some logsE } : ExecEnvelope),
         ({ st with executions := st.executions ++ [⟨workflow_id, ("failed"), some msg, logsE⟩] } : OrchState))
      if !client_available then
        finishFailed ("OpenAlgo not configured") []
      else
        match workflow.nodes.find? (fun n => n.type == ("start")) with
        | Option.none => finishFailed ("No start node found") logs0
        | some start_node =>
          match run_node_chain dispatch workflow.nodes workflow.edges start_node.id
              (⟨[], ctx1, logs0⟩ : TravState) with
          | .ok stF =>
            (({ status := ("success"), message := ("Workflow executed successfully"),
                execution_id := some execution_id, logs := some stF.logs } : ExecEnvelope),
             ({ st with executions := st.executions ++ [⟨workflow_id, ("completed"), Option.none, stF.logs⟩] } : OrchState))
          | .error err => finishFailed (travErrMsg err) logs0

/-! ## Concrete fixtures used by witnesses and counterexamples -/

/-- A fixed instantiation of the wall-clock builtin strings. -/
def sampleClock : ClockStrings :=
  ⟨("2026-10-12 10:00:00"), ("2026-10-12"), ("10:00:00"), ("2026"), ("10"), ("12"),
   ("10"), ("00"), ("00"), ("Monday"), ("2026-10-12T10:00:00")⟩

/-- A json codec that never parses and renders nothing, for concrete runs
that do not exercise json operations. -/
def nullCodec : JsonCodec := ⟨fun _ => Option.none, fun _ => ("")⟩

/-- A handler oracle whose conditional nodes always answer `condition = true`. -/
def dispatchAlwaysTrue : Dispatch := fun node ctx =>
  if node.type == ("priceCondition") then
    .ok (({ status := ("success"), condition := some true } : Envelope), ctx)
  else .ok (({ status := ("success") } : Envelope), ctx)

/-- Graph: start → conditional; the conditional has a `yes` edge to `Y` and a
`no` edge to `N`. -/
def nodesYesNo : List Node :=
  [⟨("S"), ("start"), []⟩, ⟨("C"), ("priceCondition"), []⟩,
   ⟨("Y"), ("log"), []⟩, ⟨("N"), ("log"), []⟩]

/-- Edges for `nodesYesNo`. -/
def edgesYesNo : List Edge :=
  [⟨("S"), ("C"), Option.none⟩, ⟨("C"), ("Y"), some ("yes")⟩, ⟨("C"), ("N"), some ("no")⟩]

/-- The empty traversal state. -/
def initTravState : TravState := ⟨[], WorkflowContext.init, []⟩

/-- Graph with a self-loop: start → conditional whose `yes` edge targets
itself. -/
def nodesSelfLoop : List Node := [⟨("S"), ("start"), []⟩, ⟨("C"), ("priceCondition"), []⟩]

/-- Edges for `nodesSelfLoop`. -/
def edgesSelfLoop : List Edge :=
  [⟨("S"), ("C"), Option.none⟩, ⟨("C"), ("C"), some ("yes")⟩]

/-- A handler oracle that returns an error envelope at node `E` and success
everywhere else — no handler ever raises. -/
def dispatchMidError : Dispatch := fun node ctx =>
  if node.id == ("E") then .ok (errorEnvelope ("boom"), ctx)
  else .ok (({ status := ("success") } : Envelope), ctx)

/-- Graph: start → `E` → `T`, all on default edges. -/
def nodesMidError : List Node :=
  [⟨("S"), ("start"), []⟩, ⟨("E"), ("log"), []⟩, ⟨("T"), ("log"), []⟩]

/-- Edges for `nodesMidError`. -/
def edgesMidError : List Edge :=
  [⟨("S"), ("E"), Option.none⟩, ⟨("E"), ("T"), Option.none⟩]

/-- A concrete workflow row for the orchestrator witness. -/
def wfSimple : WorkflowDef := ⟨("demo"), nodesYesNo, edgesYesNo⟩

/-! ## Helper lemmas -/

theorem interpAux_nil (resolve : String → Option String) : ∀ f, interpAux resolve f [] = []
  | 0 => rfl
  | _ + 1 => rfl

theorem string_mk_data (s : String) : String.mk s.data = s := rfl

theorem takeWhile_nonbrace : ∀ (l : List Char), (∀ c ∈ l, c ≠ ('\x7d')) →
    (l ++ ('\x7d') :: ('\x7d') :: []).takeWhile (fun c => c ≠ ('\x7d')) = l := by
  intro l h
  induction l with
  | nil => rfl
  | cons c rest ih =>
    have hc : c ≠ ('\x7d') := h c (by simp)
    have hrest := ih (fun d hd => h d (by simp [hd]))
    simp only [ne_eq, decide_not] at hrest ⊢
    rw [List.cons_append, List.takeWhile_cons]
    simp [hc, hrest]

theorem braceMatch_placeholder (x : List Char) (hne : x ≠ []) (hbr : ∀ c ∈ x, c ≠ ('\x7d')) :
    braceMatch (('\x7b') :: ('\x7b') :: (x ++ ('\x7d') :: ('\x7d') :: [])) = some (x, []) := by
  have hdrop : (x ++ ('\x7d') :: ('\x7d') :: []).drop x.length = ('\x7d') :: ('\x7d') :: [] := by
    simp [List.drop_left]
  simp only [braceMatch, takeWhile_nonbrace x hbr, hdrop]
  cases x with
  | nil => exact absurd rfl hne
  | cons a as => rfl

theorem interpAux_placeholder (resolve : String → Option String) (x : List Char) (f : Nat)
    (hne : x ≠ []) (hbr : ∀ c ∈ x, c ≠ ('\x7d')) :
    interpAux resolve (f + 1) (('\x7b') :: ('\x7b') :: (x ++ ('\x7d') :: ('\x7d') :: [])) =
      (match resolve (String.mk x) with
       | some repl => repl.data
       | Option.none => ('\x7b') :: ('\x7b') :: (x ++ ('\x7d') :: ('\x7d') :: [])) := by
  have hb := braceMatch_placeholder x hne hbr
  simp only [interpAux, hb]
  cases hres : resolve (String.mk x) with
  | some repl => simp [interpAux_nil]
  | none => simp [interpAux_nil]

theorem interpAux_no_pattern (resolve : String → Option String) :
    ∀ (fuel : Nat) (l : List Char), (∀ t, t <:+ l → braceMatch t = Option.none) →
      interpAux resolve fuel l = l := by
  intro fuel
  induction fuel with
  | zero => intro l _; rfl
  | succ f ih =>
    intro l h
    cases l with
    | nil => rfl
    | cons c rest =>
      have hc : braceMatch (c :: rest) = Option.none := h _ (List.suffix_refl _)
      simp only [interpAux, hc]
      rw [ih rest (fun t ht => h t (ht.trans (List.suffix_cons c rest)))]

theorem splitDotAux_no_dot : ∀ (l acc : List Char), (∀ c ∈ l, c ≠ ('.')) →
    splitDotAux acc l = [acc.reverse ++ l] := by
  intro l
  induction l with
  | nil => intro acc _; simp [splitDotAux]
  | cons c rest ih =>
    intro acc h
    have hc : c ≠ ('.') := h c (by simp)
    simp [splitDotAux, hc, ih (c :: acc) (fun d hd => h d (by simp [hd]))]

theorem splitDot_no_dot (x : String) (h : ∀ c ∈ x.data, c ≠ ('.')) : splitDot x = [x] := by
  simp [splitDot, splitDotAux_no_dot x.data [] h, string_mk_data]

theorem lookup_assocSet {κ α : Type} [DecidableEq κ] [BEq κ] [LawfulBEq κ]
    (entries : List (κ × α)) (k : κ) (v : α) : (assocSet entries k v).lookup k = some v := by
  induction entries with
  | nil => simp [assocSet, List.lookup]
  | cons p rest ih =>
    obtain ⟨k0, v0⟩ := p
    by_cases h : k0 = k
    · simp [assocSet, h, List.lookup]
    · have hbe : (k == k0) = false := by
        exact beq_eq_false_iff_ne.mpr (fun e => h e.symm)
      simp [assocSet, h, List.lookup, hbe, ih]

theorem data_placeholder (x : String) :
    ((("\x7b\x7b") ++ x ++ ("\x7d\x7d")) : String).data =
      ('\x7b') :: ('\x7b') :: (x.data ++ ('\x7d') :: ('\x7d') :: []) := by
  cases x with
  | mk l => rfl

theorem interpolate_single (now : ClockStrings) (ctx : WorkflowContext) (x : String)
    (hne : x.data ≠ []) (hbr : ∀ c ∈ x.data, c ≠ ('\x7d')) :
    ctx.interpolate now (("\x7b\x7b") ++ x ++ ("\x7d\x7d")) =
      (match resolveVar now ctx.vars x with
       | some repl => repl
       | Option.none => ("\x7b\x7b") ++ x ++ ("\x7d\x7d")) := by
  unfold WorkflowContext.interpolate
  rw [data_placeholder]
  have hlen : (('\x7b') :: ('\x7b') :: (x.data ++ ('\x7d') :: ('\x7d') :: [])).length =
      (x.data.length + 3) + 1 := by simp
  rw [hlen, interpAux_placeholder _ x.data (x.data.length + 3) hne hbr, string_mk_data]
  cases hres : resolveVar now ctx.vars x with
  | some repl => exact string_mk_data repl
  | none => rfl

theorem descendPath_cons_none (entries : List (String × PyValue)) (part : String)
    (rest : List String) (h : pyDictGet entries part = PyValue.none) :
    descendPath (.dict entries) (part :: rest) = Option.none := by
  simp only [descendPath, h]

theorem descendPath_cons (entries : List (String × PyValue)) (part : String)
    (rest : List String) (v : PyValue) (h : pyDictGet entries part = v)
    (hv : v ≠ PyValue.none) :
    descendPath (.dict entries) (part :: rest) = descendPath v rest := by
  cases v with
  | none => exact absurd rfl hv
  | bool b => simp only [descendPath, h]
  | int n => simp only [descendPath, h]
  | float q => simp only [descendPath, h]
  | str s => simp only [descendPath, h]
  | dict entries2 => simp only [descendPath, h]
  | list items => simp only [descendPath, h]

theorem resolveVar_not_builtin (now : ClockStrings) (vars : List (String × PyValue))
    (x : String) (hx : pyStrip x = x) (hb : getBuiltinVariable now x = Option.none) :
    resolveVar now vars x =
      (match descendPath (.dict vars) (splitDot x) with
       | some v =>
         (match v with
          | PyValue.none => Option.none
          | value => some (pyStr value))
       | Option.none => Option.none) := by
  simp only [resolveVar, hx, hb]

theorem resolveVar_lookup (now : ClockStrings) (vars : List (String × PyValue))
    (x : String) (v : PyValue) (hx : pyStrip x = x) (hdot : ∀ c ∈ x.data, c ≠ ('.'))
    (hb : getBuiltinVariable now x = Option.none)
    (hl : vars.lookup x = some v) (hv : v ≠ PyValue.none) :
    resolveVar now vars x = some (pyStr v) := by
  rw [resolveVar_not_builtin now vars x hx hb, splitDot_no_dot x hdot]
  have hg : pyDictGet vars x = v := by simp [pyDictGet, hl]
  rw [descendPath_cons vars x [] v hg hv]
  cases v with
  | none => exact absurd rfl hv
  | bool b => rfl
  | int n => rfl
  | float q => rfl
  | str s => rfl
  | dict entries2 => rfl
  | list items => rfl

theorem resolveVar_none_key (now : ClockStrings) (vars : List (String × PyValue))
    (x : String) (hx : pyStrip x = x) (hdot : ∀ c ∈ x.data, c ≠ ('.'))
    (hb : getBuiltinVariable now x = Option.none)
    (hl : pyDictGet vars x = PyValue.none) :
    resolveVar now vars x = Option.none := by
  rw [resolveVar_not_builtin now vars x hx hb, splitDot_no_dot x hdot,
      descendPath_cons_none vars x [] hl]

theorem interpolate_no_pattern (now : ClockStrings) (ctx : WorkflowContext) (s : String)
    (h : containsPattern s = false) : ctx.interpolate now s = s := by
  unfold WorkflowContext.interpolate
  rw [interpAux_no_pattern _ _ _ ?hsuf, string_mk_data]
  case hsuf =>
    intro t ht
    unfold containsPattern at h
    rw [List.any_eq_false] at h
    have hmem : t ∈ s.data.tails := (List.mem_tails _ _).mpr ht
    have := h t hmem
    cases hbm : braceMatch t with
    | some p => rw [hbm] at this; simp at this
    | none => rfl

theorem string_data_append (s t : String) : (s ++ t).data = s.data ++ t.data := rfl

theorem splitDotAux_append_dot : ∀ (l : List Char) (acc rest : List Char),
    (∀ c ∈ l, c ≠ ('.')) →
    splitDotAux acc (l ++ ('.') :: rest) = (acc.reverse ++ l) :: splitDotAux [] rest := by
  intro l
  induction l with
  | nil => intro acc rest _; simp [splitDotAux]
  | cons c cs ih =>
    intro acc rest h
    have hc : c ≠ ('.') := h c (by simp)
    simp [splitDotAux, hc, ih (c :: acc) rest (fun d hd => h d (by simp [hd]))]

theorem splitDot_single_dot (a b : String) (ha : ∀ c ∈ a.data, c ≠ ('.'))
    (hb : ∀ c ∈ b.data, c ≠ ('.')) :
    splitDot (a ++ (".") ++ b) = [a, b] := by
  have hdata : ((a ++ (".") ++ b) : String).data = a.data ++ ('.') :: b.data := by
    simp [string_data_append]
  simp [splitDot, hdata, splitDotAux_append_dot a.data [] b.data ha,
        splitDotAux_no_dot b.data [] hb, string_mk_data]


/-- C6 counterexample: the claim quantifies over every variable name, but
builtins are matched first — after `set_variable("date", 5)`, interpolating
`\x7b\x7bdate\x7d\x7d` yields the clock date, not `str(5)`. -/
theorem C6_counterexample :
    (WorkflowContext.init.set_variable ("date") (.int 5)).interpolate sampleClock
        ("\x7b\x7bdate\x7d\x7d") ≠ pyStr (.int 5) := by
  decide

/-- C6 (amended): for a variable name that is not a builtin, is already
stripped, and contains no dot or closing brace, `set_variable(x, v)` followed
by interpolating `\x7b\x7bx\x7d\x7d` yields `str(v)` for every non-`None`
value; a string containing no placeholder pattern interpolates to itself;
and a placeholder the resolver declines is preserved verbatim. -/
theorem C6_interpolation_amended :
    (∀ (now : ClockStrings) (ctx : WorkflowContext) (x : String) (v : PyValue),
       x.data ≠ [] → (∀ c ∈ x.data, c ≠ ('\x7d')) → (∀ c ∈ x.data, c ≠ ('.')) →
       pyStrip x = x → getBuiltinVariable now x = Option.none → v ≠ PyValue.none →
       (ctx.set_variable x v).interpolate now (("\x7b\x7b") ++ x ++ ("\x7d\x7d")) = pyStr v) ∧
    (∀ (now : ClockStrings) (ctx : WorkflowContext) (s : String),
       containsPattern s = false → ctx.interpolate now s = s) ∧
    (∀ (now : ClockStrings) (ctx : WorkflowContext) (x : String),
       x.data ≠ [] → (∀ c ∈ x.data, c ≠ ('\x7d')) →
       resolveVar now ctx.vars x = Option.none →
       ctx.interpolate now (("\x7b\x7b") ++ x ++ ("\x7d\x7d")) = ("\x7b\x7b") ++ x ++ ("\x7d\x7d")) := by
  refine ⟨?main, ?nopat, ?unres⟩
  case main =>
    intro now ctx x v hne hbr hdot htrim hbuiltin hv
    rw [interpolate_single now (ctx.set_variable x v) x hne hbr]
    have hl : (ctx.set_variable x v).vars.lookup x = some v := by
      simp [WorkflowContext.set_variable, lookup_assocSet]
    rw [resolveVar_lookup now (ctx.set_variable x v).vars x v htrim hdot hbuiltin hl hv]
  case nopat =>
    intro now ctx s h
    exact interpolate_no_pattern now ctx s h
  case unres =>
    intro now ctx x hne hbr hres
    rw [interpolate_single now ctx x hne hbr, hres]

/-- C6 witness: the amended claim at concrete inputs. -/
theorem C6_witness :
    (WorkflowContext.init.set_variable ("myvar") (.int 42)).interpolate sampleClock
        ("\x7b\x7bmyvar\x7d\x7d") = pyStr (.int 42) ∧
    WorkflowContext.init.interpolate sampleClock ("no placeholders here") =
      ("no placeholders here") ∧
    WorkflowContext.init.interpolate sampleClock ("\x7b\x7bmissing\x7d\x7d") =
      ("\x7b\x7bmissing\x7d\x7d") := by
  refine ⟨?a, ?b, ?c⟩
  case a =>
    exact C6_interpolation_amended.1 sampleClock WorkflowContext.init ("myvar") (.int 42)
      (by decide) (by decide) (by decide) (by decide) (by decide) (by simp)
  case b => exact C6_interpolation_amended.2.1 sampleClock WorkflowContext.init _ (by decide)
  case c =>
    exact C6_interpolation_amended.2.2 sampleClock WorkflowContext.init ("missing")
      (by decide) (by decide) (by decide)

/-- C10: the fail-soft rule covers `None` values, not only missing keys.  If
the descent reaches `None` at any step — a variable explicitly set to `None`,
or a `None` at an intermediate or final position of a dotted path — the
replacer declines and `interpolate` preserves the literal placeholder instead
of substituting the string `"None"`. -/
theorem C10_none_descent :
    (∀ (now : ClockStrings) (ctx : WorkflowContext) (x : String),
       x.data ≠ [] → (∀ c ∈ x.data, c ≠ ('\x7d')) → (∀ c ∈ x.data, c ≠ ('.')) →
       pyStrip x = x → getBuiltinVariable now x = Option.none →
       pyDictGet ctx.vars x = PyValue.none →
       ctx.interpolate now (("\x7b\x7b") ++ x ++ ("\x7d\x7d")) = ("\x7b\x7b") ++ x ++ ("\x7d\x7d")) ∧
    (∀ (entries : List (String × PyValue)) (part : String) (rest : List String),
       pyDictGet entries part = PyValue.none →
       descendPath (.dict entries) (part :: rest) = Option.none) ∧
    (∀ (now : ClockStrings) (vars : List (String × PyValue)) (raw : String),
       getBuiltinVariable now (pyStrip raw) = Option.none →
       descendPath (.dict vars) (splitDot (pyStrip raw)) = Option.none →
       resolveVar now vars raw = Option.none) ∧
    (∀ (now : ClockStrings) (ctx : WorkflowContext) (a b : String)
       (d : List (String × PyValue)),
       (∀ c ∈ a.data, c ≠ ('\x7d') ∧ c ≠ ('.')) → (∀ c ∈ b.data, c ≠ ('\x7d') ∧ c ≠ ('.')) →
       pyStrip (a ++ (".") ++ b) = a ++ (".") ++ b →
       getBuiltinVariable now (a ++ (".") ++ b) = Option.none →
       pyDictGet ctx.vars a = PyValue.dict d →
       pyDictGet d b = PyValue.none →
       ctx.interpolate now (("\x7b\x7b") ++ (a ++ (".") ++ b) ++ ("\x7d\x7d")) =
         ("\x7b\x7b") ++ (a ++ (".") ++ b) ++ ("\x7d\x7d")) := by
  refine ⟨?expl, ?step, ?decl, ?dotted⟩
  case expl =>
    intro now ctx x hne hbr hdot hstrip hbuiltin hnone
    rw [interpolate_single now ctx x hne hbr,
        resolveVar_none_key now ctx.vars x hstrip hdot hbuiltin hnone]
  case step =>
    intro entries part rest h
    exact descendPath_cons_none entries part rest h
  case decl =>
    intro now vars raw hb hd
    simp only [resolveVar, hb, hd]
  case dotted =>
    intro now ctx a b d ha hb hstrip hbuiltin hda hdb
    have hdata : ((a ++ (".") ++ b) : String).data = a.data ++ ('.') :: b.data := by
      simp [string_data_append]
    have hne : ((a ++ (".") ++ b) : String).data ≠ [] := by
      rw [hdata]; intro h; exact absurd (List.append_eq_nil.mp h).2 (by simp)
    have hbr : ∀ c ∈ ((a ++ (".") ++ b) : String).data, c ≠ ('\x7d') := by
      rw [hdata]; intro c hc
      rcases List.mem_append.mp hc with h1 | h2
      · exact (ha c h1).1
      · rcases List.mem_cons.mp h2 with h3 | h4
        · rw [h3]; decide
        · exact (hb c h4).1
    rw [interpolate_single now ctx _ hne hbr]
    have hsplit : splitDot (a ++ (".") ++ b) = [a, b] :=
      splitDot_single_dot a b (fun c hc => (ha c hc).2) (fun c hc => (hb c hc).2)
    have hdesc : descendPath (.dict ctx.vars) (splitDot (a ++ (".") ++ b)) =
        Option.none := by
      rw [hsplit, descendPath_cons ctx.vars a [b] (PyValue.dict d) hda (by simp),
          descendPath_cons_none d b [] hdb]
    have hres : resolveVar now ctx.vars (a ++ (".") ++ b) = Option.none := by
      simp only [resolveVar, hstrip, hbuiltin, hdesc]
    rw [hres]

/-- C10 witness: the fail-soft rule at concrete inputs. -/
theorem C10_witness :
    (({ vars := [(("z"), PyValue.none)], condition_results := [] } : WorkflowContext).interpolate
        sampleClock ("\x7b\x7bz\x7d\x7d") = ("\x7b\x7bz\x7d\x7d")) ∧
    descendPath (.dict [(("b"), PyValue.none)]) (("b") :: []) = Option.none ∧
    resolveVar sampleClock [] ("q") = Option.none ∧
    (({ vars := [(("a"), PyValue.dict [(("b"), PyValue.none)])], condition_results := [] } :
        WorkflowContext).interpolate sampleClock ("\x7b\x7ba.b\x7d\x7d") = ("\x7b\x7ba.b\x7d\x7d")) := by
  refine ⟨?e1, ?e2, ?e3, ?e4⟩
  case e1 =>
    exact C10_none_descent.1 sampleClock _ ("z") (by decide) (by decide) (by decide)
      (by decide) (by decide) (by rfl)
  case e2 => exact C10_none_descent.2.1 [(("b"), PyValue.none)] ("b") [] (by rfl)
  case e3 => exact C10_none_descent.2.2.1 sampleClock [] ("q") (by decide) (by rfl)
  case e4 =>
    have h := C10_none_descent.2.2.2 sampleClock
      ({ vars := [(("a"), PyValue.dict [(("b"), PyValue.none)])], condition_results := [] } :
        WorkflowContext) ("a") ("b") [(("b"), PyValue.none)]
      (by decide) (by decide) (by decide) (by decide) (by rfl) (by rfl)
    exact h

theorem containsForbidden_not_arith :
    ∀ (e : PyExpr), containsForbidden e = true → isArithOrBoolExpr e = false := by
  intro e
  induction e with
  | constant c => intro h; cases c <;> simp_all [containsForbidden, isForbiddenHead, isArithOrBoolExpr]
  | name i => intro _; rfl
  | binOp l op r ihl ihr =>
    intro h
    simp only [containsForbidden, isForbiddenHead, Bool.or_eq_true] at h
    cases op <;> simp_all [isArithOrBoolExpr] <;> rcases h with h | h <;> simp_all
  | unaryOp op x ihx =>
    intro h
    simp only [containsForbidden] at h
    cases op <;> simp_all [isArithOrBoolExpr]
  | boolOp op l r ihl ihr => intro _; rfl
  | compare l op r ihl ihr => intro _; rfl
  | call f a ihf iha => intro _; rfl
  | attributeRef o a iho => intro _; rfl
  | ifExp c t e ihc iht ihe => intro _; rfl
  | subscript o i iho ihi => intro _; rfl
  | otherNode k => intro h; simp [containsForbidden] at h

theorem mathEval_ok_arith :
    ∀ (e : PyExpr) (q : ℚ), mathEval e = .ok q → isArithOrBoolExpr e = true := by
  intro e
  induction e with
  | constant c => intro q h; cases c <;> simp_all [mathEval, isArithOrBoolExpr]
  | name i => intro q h; simp [mathEval] at h
  | binOp l op r ihl ihr =>
    intro q h
    simp only [mathEval] at h
    cases hl : mathEval l with
    | error e1 => rw [hl] at h; simp at h
    | ok a =>
      rw [hl] at h
      cases hr : mathEval r with
      | error e2 => rw [hr] at h; simp at h
      | ok b =>
        rw [hr] at h
        have hla := ihl a hl
        have hrb := ihr b hr
        cases op <;> simp_all [isArithOrBoolExpr, pyMod, pyPow]
  | unaryOp op x ihx =>
    intro q h
    simp only [mathEval] at h
    cases hx : mathEval x with
    | error e1 => rw [hx] at h; simp at h
    | ok a =>
      rw [hx] at h
      have hxa := ihx a hx
      cases op <;> simp_all [isArithOrBoolExpr]
  | boolOp op l r ihl ihr => intro q h; simp [mathEval] at h
  | compare l op r ihl ihr => intro q h; simp [mathEval] at h
  | call f a ihf iha => intro q h; simp [mathEval] at h
  | attributeRef o a iho => intro q h; simp [mathEval] at h
  | ifExp c t e ihc iht ihe => intro q h; simp [mathEval] at h
  | subscript o i iho ihi => intro q h; simp [mathEval] at h
  | otherNode k => intro q h; simp [mathEval] at h

/-- C4 counterexample: the input `True` — a `bool` constant, not an int/float
numeric literal — is accepted and evaluates to `1.0`, because the Python check
`isinstance(True, (int, float))` holds (`bool` is a subclass of `int`).
The claimed "only … int/float numeric literals" is therefore too narrow. -/
theorem C4_counterexample :
    _safe_eval_math (.constant (.bool true)) = .ok 1 ∧
    isArithExpr (.constant (.bool true)) = false := by
  exact ⟨rfl, rfl⟩

/-- C4 (amended): the evaluator accepts exactly the arithmetic fragment
extended with `bool` constants (Python bools being ints): any expression
containing an identifier lookup, function call, attribute access, comparison,
string constant, bitwise operator, or control-flow construct evaluates to a
typed error, and every successful evaluation is of an expression built only
from int/float/bool constants, the six arithmetic binary operators, and unary
plus/minus.  (Arithmetic failures such as division by zero also surface as
errors rather than results.) -/
theorem C4_safe_math_amended :
    (∀ (e : PyExpr), containsForbidden e = true →
       ∃ err, _safe_eval_math e = .error err) ∧
    (∀ (e : PyExpr) (q : ℚ), _safe_eval_math e = .ok q → isArithOrBoolExpr e = true) := by
  constructor
  · intro e h
    cases hev : _safe_eval_math e with
    | ok q =>
      have harith := mathEval_ok_arith e q hev
      have hforb := containsForbidden_not_arith e h
      rw [harith] at hforb
      exact absurd hforb (by simp)
    | error err => exact ⟨err, rfl⟩
  · intro e q h
    exact mathEval_ok_arith e q h

/-- C4 witness: the amended claim at concrete inputs — the identifier `x` is
rejected, and the accepted literal `3` lies in the arithmetic fragment. -/
theorem C4_witness :
    (∃ err, _safe_eval_math (.name ("x")) = .error err) ∧
    isArithOrBoolExpr (.constant (.int 3)) = true := by
  constructor
  · exact C4_safe_math_amended.1 (.name ("x")) (by decide)
  · exact C4_safe_math_amended.2 (.constant (.int 3)) ((3 : Int) : ℚ) rfl

theorem interpolate_empty (now : ClockStrings) (ctx : WorkflowContext) :
    ctx.interpolate now ("") = ("") := rfl

theorem get_str_falsy (now : ClockStrings) (ctx : WorkflowContext)
    (data : List (String × PyValue)) (key default : String)
    (h : pyTruthy (pyDictGetD data key (.str default)) = false) :
    get_str now ctx data key default = default := by
  simp only [get_str, h, Bool.false_eq_true, if_false]

theorem get_int_falsy (now : ClockStrings) (ctx : WorkflowContext)
    (data : List (String × PyValue)) (key : String) (default : Int)
    (h : pyTruthy (pyDictGetD data key (.int default)) = false) :
    get_int now ctx data key default = .ok default := by
  simp only [get_int]
  cases hval : pyDictGetD data key (.int default) with
  | str s =>
    rw [hval] at h
    have hs : s = ("") := by simpa [pyTruthy] using h
    subst hs
    rfl
  | none => rw [hval] at h; simp [h]
  | bool b => rw [hval] at h; simp [h]
  | int n => rw [hval] at h; simp [h]
  | float q => rw [hval] at h; simp [h]
  | dict entries => rw [hval] at h; simp [h]
  | list items => rw [hval] at h; simp [h]

theorem get_float_falsy (now : ClockStrings) (ctx : WorkflowContext)
    (data : List (String × PyValue)) (key : String) (default : ℚ)
    (h : pyTruthy (pyDictGetD data key (.float default)) = false) :
    get_float now ctx data key default = .ok default := by
  simp only [get_float]
  cases hval : pyDictGetD data key (.float default) with
  | str s =>
    rw [hval] at h
    have hs : s = ("") := by simpa [pyTruthy] using h
    subst hs
    rfl
  | none => rw [hval] at h; simp [h]
  | bool b => rw [hval] at h; simp [h]
  | int n => rw [hval] at h; simp [h]
  | float q => rw [hval] at h; simp [h]
  | dict entries => rw [hval] at h; simp [h]
  | list items => rw [hval] at h; simp [h]

theorem get_int_parse_fail (now : ClockStrings) (ctx : WorkflowContext)
    (data : List (String × PyValue)) (key : String) (default : Int) (s : String)
    (hval : pyDictGetD data key (.int default) = .str s)
    (hparse : parseFloatStr (ctx.interpolate now s) = Option.none) :
    get_int now ctx data key default = .ok default := by
  simp only [get_int, hval, hparse]

/-- C9: the typed getters fall back to the caller-supplied default not only
for a missing key or a failed string coercion, but for every falsy stored
value (`0`, `0.0`, `""`, `None`, `False`); consequently a `placeOrder` node
whose data carries quantity `0` is dispatched with the default quantity `1`,
and an explicit price of `0` is indistinguishable from an absent price. -/
theorem C9_getters_falsy :
    (∀ (now : ClockStrings) (ctx : WorkflowContext) (data : List (String × PyValue))
       (key default : String), pyTruthy (pyDictGetD data key (.str default)) = false →
       get_str now ctx data key default = default) ∧
    (∀ (now : ClockStrings) (ctx : WorkflowContext) (data : List (String × PyValue))
       (key : String) (default : Int), pyTruthy (pyDictGetD data key (.int default)) = false →
       get_int now ctx data key default = .ok default) ∧
    (∀ (now : ClockStrings) (ctx : WorkflowContext) (data : List (String × PyValue))
       (key : String) (default : ℚ), pyTruthy (pyDictGetD data key (.float default)) = false →
       get_float now ctx data key default = .ok default) ∧
    (∀ (now : ClockStrings) (ctx : WorkflowContext) (data : List (String × PyValue))
       (key : String) (default : Int) (s : String),
       pyDictGetD data key (.int default) = .str s →
       parseFloatStr (ctx.interpolate now s) = Option.none →
       get_int now ctx data key default = .ok default) ∧
    (∀ (now : ClockStrings) (ctx : WorkflowContext) (data : List (String × PyValue)),
       data.lookup ("quantity") = some (.int 0) →
       get_int now ctx data ("quantity") 1 = .ok 1) ∧
    (∀ (now : ClockStrings) (ctx : WorkflowContext) (data : List (String × PyValue)),
       data.lookup ("price") = some (.float 0) ∨ data.lookup ("price") = Option.none →
       get_float now ctx data ("price") 0 = .ok 0) ∧
    place_order_params sampleClock WorkflowContext.init
        [(("symbol"), .str ("RELIANCE")), (("quantity"), .int 0)] =
      .ok ⟨("RELIANCE"), ("NSE"), ("BUY"), 1, ("MARKET"), ("MIS"), 0, 0⟩ := by
  refine ⟨get_str_falsy, get_int_falsy, get_float_falsy, get_int_parse_fail, ?qty, ?price, by decide⟩
  case qty =>
    intro now ctx data h
    exact get_int_falsy now ctx data ("quantity") 1 (by simp [pyDictGetD, h, pyTruthy])
  case price =>
    intro now ctx data h
    rcases h with h | h
    · exact get_float_falsy now ctx data ("price") 0 (by simp [pyDictGetD, h, pyTruthy])
    · exact get_float_falsy now ctx data ("price") 0 (by simp [pyDictGetD, h, pyTruthy])

/-- C9 witness: the falsy-fallback at concrete inputs. -/
theorem C9_witness :
    get_str sampleClock WorkflowContext.init [(("symbol"), .str (""))] ("symbol") ("DEF") = ("DEF") ∧
    get_int sampleClock WorkflowContext.init [(("quantity"), .int 0)] ("quantity") 1 = .ok 1 ∧
    get_float sampleClock WorkflowContext.init [(("price"), PyValue.none)] ("price") 0 = .ok 0 ∧
    get_int sampleClock WorkflowContext.init [(("quantity"), .str ("abc"))] ("quantity") 7 = .ok 7 := by
  refine ⟨?a, ?b, ?c, ?d⟩
  case a => exact C9_getters_falsy.1 sampleClock WorkflowContext.init _ ("symbol") ("DEF") (by rfl)
  case b => exact C9_getters_falsy.2.2.2.2.1 sampleClock WorkflowContext.init _ (by rfl)
  case c => exact C9_getters_falsy.2.2.1 sampleClock WorkflowContext.init _ ("price") 0 (by rfl)
  case d =>
    exact C9_getters_falsy.2.2.2.1 sampleClock WorkflowContext.init _ ("quantity") 7 ("abc")
      (by rfl) (by decide)

theorem build_legs_quantity (strategy action : String) (quantity : Int)
    (expiry_date product pricetype : String) :
    ∀ leg ∈ _build_strategy_legs strategy action quantity expiry_date product pricetype,
      leg.quantity = quantity := by
  intro leg hmem
  unfold _build_strategy_legs at hmem
  split_ifs at hmem <;>
    simp only [List.mem_cons, List.not_mem_nil, or_false] at hmem <;>
    rcases hmem with rfl | rfl | rfl | rfl <;> rfl

/-- C8: leg synthesis matches the strategy table — straddle is ATM CE + ATM PE
with the action of the node; iron_condor SELL is sell OTM5 CE/PE and buy OTM10
CE/PE, mirrored for BUY; the quantity of every leg is the user quantity times the
fixed lot size of the underlying; BSE-index underlyings use the
`BSE_INDEX`/`BFO` exchange pair and all others `NSE_INDEX`/`NFO`; and an
unrecognized strategy yields an empty leg list and an "Unknown strategy"
error. -/
theorem C8_strategy_legs :
    (∀ (action : String) (q : Int) (e p pt : String),
       _build_strategy_legs ("straddle") action q e p pt =
         [⟨("ATM"), ("CE"), action, q, e, p, pt, 0⟩,
          ⟨("ATM"), ("PE"), action, q, e, p, pt, 0⟩]) ∧
    (∀ (q : Int) (e p pt : String),
       _build_strategy_legs ("iron_condor") ("SELL") q e p pt =
         [⟨("OTM5"), ("CE"), ("SELL"), q, e, p, pt, 0⟩,
          ⟨("OTM5"), ("PE"), ("SELL"), q, e, p, pt, 0⟩,
          ⟨("OTM10"), ("CE"), ("BUY"), q, e, p, pt, 0⟩,
          ⟨("OTM10"), ("PE"), ("BUY"), q, e, p, pt, 0⟩]) ∧
    (∀ (q : Int) (e p pt : String),
       _build_strategy_legs ("iron_condor") ("BUY") q e p pt =
         [⟨("OTM5"), ("CE"), ("BUY"), q, e, p, pt, 0⟩,
          ⟨("OTM5"), ("PE"), ("BUY"), q, e, p, pt, 0⟩,
          ⟨("OTM10"), ("CE"), ("SELL"), q, e, p, pt, 0⟩,
          ⟨("OTM10"), ("PE"), ("SELL"), q, e, p, pt, 0⟩]) ∧
    (∀ (underlying strategy action : String) (quantity : Int) (expiry product pt : String)
       (plan : MultiOrderPlan),
       execute_options_multi_order_plan underlying strategy action quantity
           (some expiry) product pt = .ok plan →
       (∀ leg ∈ plan.legs, leg.quantity = quantity * lot_size_of underlying) ∧
       plan.underlying_exchange = (underlying_exchange_pair underlying).1 ∧
       plan.fo_exchange = (underlying_exchange_pair underlying).2) ∧
    (∀ (underlying : String),
       (underlying = ("SENSEX") ∨ underlying = ("BANKEX") ∨ underlying = ("SENSEX50") →
          underlying_exchange_pair underlying = (("BSE_INDEX"), ("BFO"))) ∧
       (¬(underlying = ("SENSEX") ∨ underlying = ("BANKEX") ∨ underlying = ("SENSEX50")) →
          underlying_exchange_pair underlying = (("NSE_INDEX"), ("NFO")))) ∧
    (∀ (strategy : String),
       strategy ∉ [("straddle"), ("strangle"), ("iron_condor"), ("iron_butterfly"),
                   ("bull_call_spread"), ("bear_put_spread"), ("bull_put_spread"),
                   ("bear_call_spread")] →
       (∀ (action : String) (q : Int) (e p pt : String),
          _build_strategy_legs strategy action q e p pt = []) ∧
       (∀ (underlying action : String) (quantity : Int) (expiry product pt : String),
          execute_options_multi_order_plan underlying strategy action quantity
              (some expiry) product pt = .error (("Unknown strategy: ") ++ strategy))) := by
  refine ⟨?straddle, ?icSell, ?icBuy, ?plan, ?exch, ?unknown⟩
  case straddle => intro action q e p pt; simp [_build_strategy_legs]
  case icSell => intro q e p pt; simp [_build_strategy_legs]
  case icBuy => intro q e p pt; simp [_build_strategy_legs]
  case plan =>
    intro underlying strategy action quantity expiry product pt plan h
    simp only [execute_options_multi_order_plan] at h
    split_ifs at h with hempty
    all_goals
      injection h with h2
      rw [← h2]
      exact ⟨fun leg hmem => build_legs_quantity strategy action _ expiry product pt leg hmem,
             rfl, rfl⟩
  case exch =>
    intro underlying
    constructor
    · intro h
      rcases h with h | h | h <;> simp [underlying_exchange_pair, h]
    · intro h
      push_neg at h
      simp [underlying_exchange_pair, h.1, h.2.1, h.2.2]
  case unknown =>
    intro strategy h
    have h1 : strategy ≠ ("straddle") := by intro e; exact h (by rw [e]; simp)
    have h2 : strategy ≠ ("strangle") := by intro e; exact h (by rw [e]; simp)
    have h3 : strategy ≠ ("iron_condor") := by intro e; exact h (by rw [e]; simp)
    have h4 : strategy ≠ ("iron_butterfly") := by intro e; exact h (by rw [e]; simp)
    have h5 : strategy ≠ ("bull_call_spread") := by intro e; exact h (by rw [e]; simp)
    have h6 : strategy ≠ ("bear_put_spread") := by intro e; exact h (by rw [e]; simp)
    have h7 : strategy ≠ ("bull_put_spread") := by intro e; exact h (by rw [e]; simp)
    have h8 : strategy ≠ ("bear_call_spread") := by intro e; exact h (by rw [e]; simp)
    have hbuild : ∀ (action : String) (q : Int) (e p pt : String),
        _build_strategy_legs strategy action q e p pt = [] := by
      intro action q e p pt
      simp [_build_strategy_legs, h1, h2, h3, h4, h5, h6, h7, h8]
    refine ⟨hbuild, ?_⟩
    intro underlying action quantity expiry product pt
    simp [execute_options_multi_order_plan, hbuild]

/-- C8 witness: the strategy table at concrete inputs. -/
theorem C8_witness :
    _build_strategy_legs ("straddle") ("BUY") 150 ("10OCT26") ("NRML") ("MARKET") =
      [⟨("ATM"), ("CE"), ("BUY"), 150, ("10OCT26"), ("NRML"), ("MARKET"), 0⟩,
       ⟨("ATM"), ("PE"), ("BUY"), 150, ("10OCT26"), ("NRML"), ("MARKET"), 0⟩] ∧
    underlying_exchange_pair ("SENSEX") = (("BSE_INDEX"), ("BFO")) ∧
    underlying_exchange_pair ("NIFTY") = (("NSE_INDEX"), ("NFO")) ∧
    execute_options_multi_order_plan ("NIFTY") ("butterfly") ("SELL") 2 (some ("10OCT26"))
        ("NRML") ("MARKET") = .error (("Unknown strategy: ") ++ ("butterfly")) := by
  refine ⟨C8_strategy_legs.1 ("BUY") 150 _ _ _, ?e1, ?e2, ?e3⟩
  case e1 => exact (C8_strategy_legs.2.2.2.2.1 ("SENSEX")).1 (by simp)
  case e2 => exact (C8_strategy_legs.2.2.2.2.1 ("NIFTY")).2 (by simp)
  case e3 =>
    exact (C8_strategy_legs.2.2.2.2.2 ("butterfly") (by decide)).2 ("NIFTY") ("SELL") 2
      ("10OCT26") ("NRML") ("MARKET")


/-- C7 counterexample: a divide node whose configured divisor is the literal
number `0` does not return an error — `float(var_value) if var_value else 1`
treats the falsy `0` as absent and divides by `1`, returning success and
overwriting the variable. -/
theorem C7_counterexample :
    (execute_variable nullCodec sampleClock
        [(("variableName"), .str ("x")), (("operation"), .str ("divide")), (("value"), .int 0)]
        ({ vars := [(("x"), .int 10)], condition_results := [] } : WorkflowContext)).1.status =
      ("success") ∧ ("success") ≠ ("error") := by
  constructor
  · rfl
  · decide

/-- C7 (amended): in the `divide` operation the error path triggers when the
configured divisor is truthy and coerces to float zero (for example the
string `"0"` or an interpolated zero); it then returns a `status:"error"`
envelope with a message and leaves the context — in particular the target
variable — unchanged.  A literal falsy `0` divisor instead falls back to `1`
and succeeds.  In `mathExpression`, division by zero is caught by the
handler and becomes a `status:"error"` envelope, with the output variable
left unwritten. -/
theorem C7_division_by_zero_amended :
    (∀ (codec : JsonCodec) (now : ClockStrings) (node_data : List (String × PyValue))
       (ctx : WorkflowContext),
       keyOf (pyDictGetD node_data ("operation") (.str ("set"))) = ("divide") →
       pyTruthy (interpolateValue ctx now (pyDictGetD node_data ("value") (.str ("")))) = true →
       pyFloat (interpolateValue ctx now (pyDictGetD node_data ("value") (.str ("")))) = .ok 0 →
       (execute_variable codec now node_data ctx).1.status = ("error") ∧
       (execute_variable codec now node_data ctx).1.message.isSome = true ∧
       (execute_variable codec now node_data ctx).2 = ctx) ∧
    (∀ (parse : String → Option PyExpr) (now : ClockStrings)
       (node_data : List (String × PyValue)) (ctx : WorkflowContext) (s : String)
       (tree : PyExpr),
       pyTruthy (pyDictGetD node_data ("expression") (.str (""))) = true →
       interpolateValue ctx now (pyDictGetD node_data ("expression") (.str (""))) = .str s →
       pyStrip s ≠ ("") →
       parse (pyStrip s) = some tree →
       _safe_eval_math tree = .error .zeroDivision →
       (execute_math_expression parse now node_data ctx).1.status = ("error") ∧
       (execute_math_expression parse now node_data ctx).1.message =
         some (("division by zero")) ∧
       (execute_math_expression parse now node_data ctx).2 = ctx) ∧
    (∀ (codec : JsonCodec) (now : ClockStrings) (node_data : List (String × PyValue))
       (ctx : WorkflowContext) (c : ℚ),
       keyOf (pyDictGetD node_data ("operation") (.str ("set"))) = ("divide") →
       pyTruthy (interpolateValue ctx now (pyDictGetD node_data ("value") (.str ("")))) = false →
       (if pyTruthy (ctx.get_variable (keyOf (pyOr (pyDictGet node_data ("variableName"))
            (pyDictGetD node_data ("name") (.str (""))))) (.int 0)) = true then
          pyFloat (ctx.get_variable (keyOf (pyOr (pyDictGet node_data ("variableName"))
            (pyDictGetD node_data ("name") (.str (""))))) (.int 0))
        else .ok 0) = .ok c →
       (execute_variable codec now node_data ctx).1.status = ("success") ∧
       (execute_variable codec now node_data ctx).2 =
         ctx.set_variable (keyOf (pyOr (pyDictGet node_data ("variableName"))
           (pyDictGetD node_data ("name") (.str (""))))) (.float (c / 1))) := by
  refine ⟨?divzero, ?mathzero, ?falsy⟩
  case divzero =>
    intro codec now node_data ctx hop htruthy hzero
    simp only [execute_variable, hop]
    norm_num
    rw [htruthy]
    simp only [if_true, hzero]
    cases hcur : (if pyTruthy (ctx.get_variable (keyOf (pyOr (pyDictGet node_data ("variableName"))
        (pyDictGetD node_data ("name") (.str (""))))) (.int 0)) = true then
          pyFloat (ctx.get_variable (keyOf (pyOr (pyDictGet node_data ("variableName"))
            (pyDictGetD node_data ("name") (.str (""))))) (.int 0))
        else Except.ok 0) with
    | error e => simp [coerceTwo, hcur, errorEnvelope]
    | ok c => simp [coerceTwo, hcur, errorEnvelope]
  case mathzero =>
    intro parse now node_data ctx s tree hexpr hinterp hclean hparse heval
    simp only [execute_math_expression, hexpr, hinterp, hclean, hparse, heval]
    simp [errorEnvelope, evalErrMsg]
  case falsy =>
    intro codec now node_data ctx c hop hfalsy hcur
    simp only [execute_variable, hop]
    norm_num
    rw [hfalsy]
    simp only [Bool.false_eq_true, if_false]
    rw [hcur]
    simp [coerceTwo]

/-- C7 witness: the amended claim at concrete inputs — the string divisor
`"0"` errors and preserves the context, `1/0` in a math expression errors
without writing the output variable, and the literal `0` divisor divides by
one. -/
theorem C7_witness :
    ((execute_variable nullCodec sampleClock
        [(("variableName"), .str ("x")), (("operation"), .str ("divide")), (("value"), .str ("0"))]
        ({ vars := [(("x"), .int 10)], condition_results := [] } : WorkflowContext)).1.status =
      ("error") ∧
     (execute_variable nullCodec sampleClock
        [(("variableName"), .str ("x")), (("operation"), .str ("divide")), (("value"), .str ("0"))]
        ({ vars := [(("x"), .int 10)], condition_results := [] } : WorkflowContext)).2 =
      ({ vars := [(("x"), .int 10)], condition_results := [] } : WorkflowContext)) ∧
    ((execute_math_expression
        (fun _ => some (.binOp (.constant (.int 1)) .div (.constant (.int 0)))) sampleClock
        [(("expression"), .str ("1/0"))] WorkflowContext.init).1.status = ("error") ∧
     (execute_math_expression
        (fun _ => some (.binOp (.constant (.int 1)) .div (.constant (.int 0)))) sampleClock
        [(("expression"), .str ("1/0"))] WorkflowContext.init).2 = WorkflowContext.init) ∧
    (execute_variable nullCodec sampleClock
        [(("variableName"), .str ("x")), (("operation"), .str ("divide")), (("value"), .int 0)]
        ({ vars := [(("x"), .int 10)], condition_results := [] } : WorkflowContext)).1.status =
      ("success") := by
  have hzero : pyFloat (PyValue.str ("0")) = .ok 0 := by
    simp [pyFloat, parseFloatStr, pyStrip, spanDigits, parseExponent]
  have h1 := C7_division_by_zero_amended.1 nullCodec sampleClock
    [(("variableName"), .str ("x")), (("operation"), .str ("divide")), (("value"), .str ("0"))]
    ({ vars := [(("x"), .int 10)], condition_results := [] } : WorkflowContext)
    (by rfl) (by rfl) (by exact hzero)
  have h2 := C7_division_by_zero_amended.2.1
    (fun _ => some (.binOp (.constant (.int 1)) .div (.constant (.int 0)))) sampleClock
    [(("expression"), .str ("1/0"))] WorkflowContext.init ("1/0")
    (.binOp (.constant (.int 1)) .div (.constant (.int 0)))
    (by decide) (by rfl) (by decide) (by rfl)
    (by norm_num [_safe_eval_math, mathEval])
  have h3 := C7_division_by_zero_amended.2.2 nullCodec sampleClock
    [(("variableName"), .str ("x")), (("operation"), .str ("divide")), (("value"), .int 0)]
    ({ vars := [(("x"), .int 10)], condition_results := [] } : WorkflowContext) ((10 : Int) : ℚ)
    (by rfl) (by rfl) (by simp [WorkflowContext.get_variable, pyTruthy, pyFloat, keyOf, pyOr, pyDictGet, pyDictGetD])
  exact ⟨⟨h1.1, h1.2.2⟩, ⟨h2.1, h2.2.2⟩, h3.1⟩





/-- C3: when a handler result carries a condition, the traverser stores the
boolean in `condition_results` under the node id and follows exactly the
edges whose `sourceHandle` matches the branch (`"yes"` iff true, `"no"` iff
false) plus every default edge (absent, empty, or any other label); the edge
labelled with the opposite branch is never followed.  On the concrete
yes/no graph with an always-true conditional, the `yes` target is visited
once, the `no` target never, and the stored condition is `true`. -/
theorem C3_condition_routing :
    (∀ (node_id : String) (env : Envelope) (b : Bool) (ctx : WorkflowContext)
       (edges : List Edge), env.condition = some b →
       (apply_condition_routing node_id (some env) ctx edges).1.condition_results.lookup node_id =
         some b ∧
       (apply_condition_routing node_id (some env) ctx edges).2 = filter_condition_edges b edges) ∧
    (∀ (b : Bool) (edges : List Edge) (e : Edge),
       e ∈ filter_condition_edges b edges ↔
         e ∈ edges ∧ ((b = true ∧ e.sourceHandle.getD ("") = ("yes")) ∨
                      (b = false ∧ e.sourceHandle.getD ("") = ("no")) ∨
                      (e.sourceHandle.getD ("") ≠ ("yes") ∧ e.sourceHandle.getD ("") ≠ ("no")))) ∧
    (∀ (b : Bool) (edges : List Edge) (e : Edge), e ∈ filter_condition_edges b edges →
       ¬(b = true ∧ e.sourceHandle.getD ("") = ("no")) ∧
       ¬(b = false ∧ e.sourceHandle.getD ("") = ("yes"))) ∧
    (run_node_chain dispatchAlwaysTrue nodesYesNo edgesYesNo ("S") initTravState).map
        (fun st => (getVisit st.visited_count ("Y"), getVisit st.visited_count ("N"),
                    st.context.get_condition_result ("C"))) =
      .ok (1, 0, some true) := by
  refine ⟨?store, ?mem, ?opposite, ?concrete⟩
  case store =>
    intro node_id env b ctx edges h
    simp only [apply_condition_routing, h]
    exact ⟨lookup_assocSet ctx.condition_results node_id b, trivial⟩
  case mem =>
    intro b edges e
    simp only [filter_condition_edges, List.mem_filter, Bool.or_eq_true, Bool.and_eq_true,
      beq_iff_eq, bne_iff_ne, ne_eq]
    by_cases hy : e.sourceHandle.getD ("") = ("yes") <;>
      by_cases hn : e.sourceHandle.getD ("") = ("no") <;>
        cases b <;> simp_all
  case opposite =>
    intro b edges e hmem
    simp only [filter_condition_edges, List.mem_filter, Bool.or_eq_true, Bool.and_eq_true,
      beq_iff_eq, bne_iff_ne, ne_eq] at hmem
    by_cases hy : e.sourceHandle.getD ("") = ("yes") <;>
      by_cases hn : e.sourceHandle.getD ("") = ("no") <;>
        cases b <;> simp_all
  case concrete => decide

/-- C3 witness: condition routing at concrete inputs. -/
theorem C3_witness :
    ((apply_condition_routing ("C")
        (some ({ status := ("success"), condition := some true } : Envelope))
        WorkflowContext.init edgesYesNo).1.condition_results.lookup ("C") = some true ∧
     (apply_condition_routing ("C")
        (some ({ status := ("success"), condition := some true } : Envelope))
        WorkflowContext.init edgesYesNo).2 = filter_condition_edges true edgesYesNo) ∧
    ((⟨("C"), ("Y"), some ("yes")⟩ : Edge) ∈ edgesYesNo ∧
      ((true = true ∧ ((⟨("C"), ("Y"), some ("yes")⟩ : Edge)).sourceHandle.getD ("") = ("yes")) ∨
       (true = false ∧ ((⟨("C"), ("Y"), some ("yes")⟩ : Edge)).sourceHandle.getD ("") = ("no")) ∨
       (((⟨("C"), ("Y"), some ("yes")⟩ : Edge)).sourceHandle.getD ("") ≠ ("yes") ∧
        ((⟨("C"), ("Y"), some ("yes")⟩ : Edge)).sourceHandle.getD ("") ≠ ("no")))) ∧
    (¬(false = true ∧ ((⟨("C"), ("N"), some ("no")⟩ : Edge)).sourceHandle.getD ("") = ("no")) ∧
     ¬(false = false ∧ ((⟨("C"), ("N"), some ("no")⟩ : Edge)).sourceHandle.getD ("") = ("yes"))) := by
  refine ⟨C3_condition_routing.1 ("C") _ true WorkflowContext.init edgesYesNo rfl, ?m, ?o⟩
  case m =>
    exact (C3_condition_routing.2.1 true edgesYesNo ⟨("C"), ("Y"), some ("yes")⟩).mp (by decide)
  case o =>
    exact C3_condition_routing.2.2.1 false edgesYesNo ⟨("C"), ("N"), some ("no")⟩ (by decide)

theorem getVisit_cons (k0 : String) (n0 : Nat) (rest : List (String × Nat)) (id : String) :
    getVisit ((k0, n0) :: rest) id = if id = k0 then n0 else getVisit rest id := by
  by_cases h : id = k0
  · simp [getVisit, List.lookup, h]
  · have hbe : (id == k0) = false := beq_eq_false_iff_ne.mpr h
    simp [getVisit, List.lookup, hbe, h]

theorem visitTotal_assocSet (vc : List (String × Nat)) (id : String) :
    visitTotal (assocSet vc id (getVisit vc id + 1)) = visitTotal vc + 1 := by
  induction vc with
  | nil => simp [assocSet, visitTotal, getVisit, List.lookup]
  | cons p rest ih =>
    obtain ⟨k0, n0⟩ := p
    by_cases h : k0 = id
    · subst h
      simp [assocSet, getVisit_cons, visitTotal]
      omega
    · have hne : id ≠ k0 := fun e => h e.symm
      simp only [assocSet, h, if_false, getVisit_cons, hne]
      simp [visitTotal] at ih ⊢
      omega

theorem node_step_visited (dispatch : Dispatch) (incoming : List Edge) (node : Node)
    (st st2 : TravState) (r : Option Envelope)
    (h : node_step dispatch incoming node st = .ok (r, st2)) :
    st2.visited_count = st.visited_count := by
  simp only [node_step] at h
  split_ifs at h
  case pos => injection h with h2; injection h2 with h3 h4; rw [← h4]; rfl
  case pos => injection h with h2; injection h2 with h3 h4; rw [← h4]
  case pos => injection h with h2; injection h2 with h3 h4; rw [← h4]
  case pos => injection h with h2; injection h2 with h3 h4; rw [← h4]
  case pos => injection h with h2; injection h2 with h3 h4; rw [← h4]
  case pos =>
    cases hd : dispatch node st.context with
    | error msg => rw [hd] at h; simp at h
    | ok p =>
      rw [hd] at h
      obtain ⟨env, ctx2⟩ := p
      simp only at h
      injection h with h2
      injection h2 with h3 h4
      rw [← h4]
  case neg => injection h with h2; injection h2 with h3 h4; rw [← h4]; rfl

theorem execute_node_chain_visits_le (d : Dispatch) (nodes : List Node) (edges : List Edge) :
    ∀ (fuel : Nat) (node_id : String) (depth : Nat) (st st2 : TravState),
      execute_node_chain d nodes edges fuel node_id depth st = .ok st2 →
      visitTotal st.visited_count ≤ MAX_NODE_VISITS →
      visitTotal st2.visited_count ≤ MAX_NODE_VISITS := by
  intro fuel
  induction fuel with
  | zero =>
    intro nid depth st st2 h _
    simp [execute_node_chain] at h
  | succ f ih =>
    have hfollow : ∀ (es : List Edge) (depth : Nat) (st st2 : TravState),
        follow_edges (execute_node_chain d nodes edges f) es depth st = .ok st2 →
        visitTotal st.visited_count ≤ MAX_NODE_VISITS →
        visitTotal st2.visited_count ≤ MAX_NODE_VISITS := by
      intro es
      induction es with
      | nil =>
        intro depth st st2 h hle
        simp only [follow_edges] at h
        injection h with h2
        rw [← h2]
        exact hle
      | cons e rest ihe =>
        intro depth st st2 h hle
        simp only [follow_edges] at h
        split_ifs at h with htgt
        · exact ihe depth st st2 h hle
        · cases hrec : execute_node_chain d nodes edges f e.target depth st with
          | error err => rw [hrec] at h; simp at h
          | ok stm =>
            rw [hrec] at h
            simp only at h
            exact ihe depth stm st2 h (ih e.target depth st stm hrec hle)
    intro nid depth st st2 h hle
    by_cases hdepth : depth > MAX_NODE_DEPTH
    · simp [execute_node_chain, hdepth] at h
    · by_cases hvisits : visitTotal st.visited_count ≥ MAX_NODE_VISITS
      · simp [execute_node_chain, hdepth, hvisits] at h
      · have hbody : ∀ (stw : TravState),
            stw.visited_count = assocSet st.visited_count nid (getVisit st.visited_count nid + 1) →
            (match nodes.find? (fun n => n.id == nid) with
             | Option.none => Except.ok stw
             | some node =>
               match node_step d (incoming_edge_map edges nid) node stw with
               | Except.error msg => Except.error (TravError.handlerRaised msg)
               | Except.ok (result, st3) =>
                 follow_edges (execute_node_chain d nodes edges f)
                   (apply_condition_routing nid result st3.context (edge_map edges nid)).2
                   (depth + 1)
                   { st3 with context := (apply_condition_routing nid result st3.context
                       (edge_map edges nid)).1 }) = Except.ok st2 →
            visitTotal st2.visited_count ≤ MAX_NODE_VISITS := by
          intro stw hwv hm
          have hwle : visitTotal stw.visited_count ≤ MAX_NODE_VISITS := by
            rw [hwv, visitTotal_assocSet]
            omega
          cases hfind : nodes.find? (fun n => n.id == nid) with
          | none =>
            rw [hfind] at hm
            simp only at hm
            injection hm with h2
            rw [← h2]
            exact hwle
          | some node =>
            rw [hfind] at hm
            simp only at hm
            cases hstep : node_step d (incoming_edge_map edges nid) node stw with
            | error msg => rw [hstep] at hm; simp at hm
            | ok out =>
              rw [hstep] at hm
              obtain ⟨r, st3⟩ := out
              simp only at hm
              have hst3v : visitTotal st3.visited_count ≤ MAX_NODE_VISITS := by
                rw [node_step_visited d _ node stw st3 r hstep]
                exact hwle
              exact hfollow _ (depth + 1) _ st2 hm hst3v
        simp only [execute_node_chain, if_neg hdepth, if_neg hvisits] at h
        by_cases hw : getVisit st.visited_count nid + 1 > 10
        · rw [if_pos hw] at h
          exact hbody _ rfl h
        · rw [if_neg hw] at h
          exact hbody _ rfl h

theorem execute_node_chain_depth_guard (d : Dispatch) (nodes : List Node) (edges : List Edge)
    (fuel : Nat) (nid : String) (depth : Nat) (st : TravState) (h : depth > MAX_NODE_DEPTH) :
    execute_node_chain d nodes edges (fuel + 1) nid depth st = .error .depthExceeded := by
  simp [execute_node_chain, h]

theorem execute_node_chain_visits_guard (d : Dispatch) (nodes : List Node) (edges : List Edge)
    (fuel : Nat) (nid : String) (depth : Nat) (st : TravState)
    (h1 : ¬depth > MAX_NODE_DEPTH) (h2 : visitTotal st.visited_count ≥ MAX_NODE_VISITS) :
    execute_node_chain d nodes edges (fuel + 1) nid depth st = .error .visitsExceeded := by
  simp [execute_node_chain, h1, h2]



set_option maxRecDepth 10000 in
/-- C2 counterexample: a self-loop through an always-true conditional
terminates with the depth-limit error, not the visit-limit error the claim
names — the recursion depth grows one-for-one with the visits, so the depth
bound (100) trips after about 101 visits, far below the visit bound (500). -/
theorem C2_counterexample :
    run_node_chain dispatchAlwaysTrue nodesSelfLoop edgesSelfLoop ("S") initTravState =
      .error .depthExceeded ∧
    TravError.depthExceeded ≠ TravError.visitsExceeded := by
  exact ⟨rfl, by decide⟩

set_option maxRecDepth 10000 in
/-- C2 (amended): the traverser enforces both bounds — any call at depth
greater than `MAX_NODE_DEPTH = 100` raises the fatal depth error, any call
with `MAX_NODE_VISITS = 500` or more total recorded visits (at depth within
bounds) raises the fatal visit error, and a traversal that completes
normally never accumulates more than 500 visits.  A self-loop through an
always-true conditional, however, terminates with the depth-limit error
(the depth bound trips first on a linear chain), not the visit-limit error. -/
theorem C2_loop_protection_amended :
    MAX_NODE_DEPTH = 100 ∧ MAX_NODE_VISITS = 500 ∧
    (∀ (d : Dispatch) (nodes : List Node) (edges : List Edge) (fuel : Nat)
       (nid : String) (depth : Nat) (st : TravState), depth > MAX_NODE_DEPTH →
       execute_node_chain d nodes edges (fuel + 1) nid depth st = .error .depthExceeded) ∧
    (∀ (d : Dispatch) (nodes : List Node) (edges : List Edge) (fuel : Nat)
       (nid : String) (depth : Nat) (st : TravState),
       ¬depth > MAX_NODE_DEPTH → visitTotal st.visited_count ≥ MAX_NODE_VISITS →
       execute_node_chain d nodes edges (fuel + 1) nid depth st = .error .visitsExceeded) ∧
    (∀ (d : Dispatch) (nodes : List Node) (edges : List Edge) (fuel : Nat)
       (nid : String) (depth : Nat) (st st2 : TravState),
       execute_node_chain d nodes edges fuel nid depth st = .ok st2 →
       visitTotal st.visited_count ≤ MAX_NODE_VISITS →
       visitTotal st2.visited_count ≤ MAX_NODE_VISITS) ∧
    run_node_chain dispatchAlwaysTrue nodesSelfLoop edgesSelfLoop ("S") initTravState =
      .error .depthExceeded := by
  exact ⟨rfl, rfl, execute_node_chain_depth_guard, execute_node_chain_visits_guard,
         execute_node_chain_visits_le, rfl⟩

/-- C2 witness: the amended claim at concrete inputs — the depth guard at
depth 101, the visit guard at 500 recorded visits, and the visit invariant
on a completed one-visit run. -/
theorem C2_witness :
    execute_node_chain dispatchAlwaysTrue [] [] 1 ("A") 101 initTravState =
      .error .depthExceeded ∧
    execute_node_chain dispatchAlwaysTrue [] [] 1 ("A") 0
        (⟨[(("A"), 500)], WorkflowContext.init, []⟩ : TravState) = .error .visitsExceeded ∧
    visitTotal ((⟨[(("A"), 1)], WorkflowContext.init, []⟩ : TravState)).visited_count ≤
      MAX_NODE_VISITS := by
  refine ⟨?g1, ?g2, ?g3⟩
  case g1 =>
    exact C2_loop_protection_amended.2.2.1 dispatchAlwaysTrue [] [] 0 ("A") 101 initTravState
      (by decide)
  case g2 =>
    exact C2_loop_protection_amended.2.2.2.1 dispatchAlwaysTrue [] [] 0 ("A") 0 _
      (by decide) (by decide)
  case g3 =>
    exact C2_loop_protection_amended.2.2.2.2.1 dispatchAlwaysTrue [] [] 1 ("A") 0 initTravState
      (⟨[(("A"), 1)], WorkflowContext.init, []⟩ : TravState) rfl (by decide)

theorem node_step_total (d : Dispatch) (hnr : ∀ node ctx, ∃ p, d node ctx = .ok p)
    (incoming : List Edge) (node : Node) (st : TravState) :
    ∃ out, node_step d incoming node st = .ok out := by
  simp only [node_step]
  split_ifs
  case pos => exact ⟨_, rfl⟩
  case pos => exact ⟨_, rfl⟩
  case pos => exact ⟨_, rfl⟩
  case pos => exact ⟨_, rfl⟩
  case pos => exact ⟨_, rfl⟩
  case pos =>
    obtain ⟨p, hp⟩ := hnr node st.context
    rw [hp]
    obtain ⟨env, ctx2⟩ := p
    exact ⟨_, rfl⟩
  case neg => exact ⟨_, rfl⟩

theorem execute_node_chain_no_raise (d : Dispatch) (nodes : List Node) (edges : List Edge)
    (hnr : ∀ node ctx, ∃ p, d node ctx = .ok p) :
    ∀ (fuel : Nat) (nid : String) (depth : Nat) (st : TravState),
      1 ≤ fuel → MAX_NODE_DEPTH + 2 ≤ depth + fuel →
      (∃ st2, execute_node_chain d nodes edges fuel nid depth st = .ok st2) ∨
      execute_node_chain d nodes edges fuel nid depth st = .error .depthExceeded ∨
      execute_node_chain d nodes edges fuel nid depth st = .error .visitsExceeded := by
  intro fuel
  induction fuel with
  | zero => intro nid depth st hf _; omega
  | succ f ih =>
    intro nid depth st _ hsum
    by_cases hdepth : depth > MAX_NODE_DEPTH
    · exact Or.inr (Or.inl (execute_node_chain_depth_guard d nodes edges f nid depth st hdepth))
    · by_cases hvisits : visitTotal st.visited_count ≥ MAX_NODE_VISITS
      · exact Or.inr (Or.inr
          (execute_node_chain_visits_guard d nodes edges f nid depth st hdepth hvisits))
      · have hf1 : 1 ≤ f := by
          simp [MAX_NODE_DEPTH] at hdepth hsum ⊢
          omega
        have hsum1 : MAX_NODE_DEPTH + 2 ≤ (depth + 1) + f := by
          simp [MAX_NODE_DEPTH] at hsum ⊢
          omega
        have hfollow : ∀ (es : List Edge) (st3 : TravState),
            (∃ st2, follow_edges (execute_node_chain d nodes edges f) es (depth + 1) st3 =
              .ok st2) ∨
            follow_edges (execute_node_chain d nodes edges f) es (depth + 1) st3 =
              .error .depthExceeded ∨
            follow_edges (execute_node_chain d nodes edges f) es (depth + 1) st3 =
              .error .visitsExceeded := by
          intro es
          induction es with
          | nil => intro st3; exact Or.inl ⟨st3, rfl⟩
          | cons e rest ihe =>
            intro st3
            by_cases htgt : e.target == ("")
            · simp only [follow_edges, htgt, if_true]
              exact ihe st3
            · simp only [follow_edges, htgt, Bool.false_eq_true, if_false]
              rcases ih e.target (depth + 1) st3 hf1 hsum1 with ⟨stm, hok⟩ | herr | herr
              · rw [hok]
                simp only
                exact ihe stm
              · rw [herr]
                exact Or.inr (Or.inl rfl)
              · rw [herr]
                exact Or.inr (Or.inr rfl)
        simp only [execute_node_chain, if_neg hdepth, if_neg hvisits]
        by_cases hw : getVisit st.visited_count nid + 1 > 10 <;>
          [rw [if_pos hw]; rw [if_neg hw]] <;>
        · cases hfind : nodes.find? (fun n => n.id == nid) with
          | none => exact Or.inl ⟨_, rfl⟩
          | some node =>
            simp only
            obtain ⟨out, hstep⟩ := node_step_total d hnr (incoming_edge_map edges nid) node _
            rw [hstep]
            obtain ⟨r, st3⟩ := out
            simp only
            exact hfollow _ _

theorem apply_condition_routing_no_condition (nid : String) (env : Envelope)
    (ctx : WorkflowContext) (edges : List Edge) (h : env.condition = Option.none) :
    apply_condition_routing nid (some env) ctx edges = (ctx, edges) := by
  simp only [apply_condition_routing, h]

theorem apply_condition_routing_ignores_status (nid : String) (env env' : Envelope)
    (ctx : WorkflowContext) (edges : List Edge) (h : env.condition = env'.condition) :
    apply_condition_routing nid (some env) ctx edges =
      apply_condition_routing nid (some env') ctx edges := by
  simp only [apply_condition_routing, h]

theorem execute_variable_unknown_op (codec : JsonCodec) (now : ClockStrings)
    (node_data : List (String × PyValue)) (ctx : WorkflowContext)
    (h : keyOf (pyDictGetD node_data ("operation") (.str ("set"))) ∉
      [("set"), ("get"), ("add"), ("subtract"), ("multiply"), ("divide"),
       ("increment"), ("decrement"), ("append"), ("parse_json"), ("stringify")]) :
    (execute_variable codec now node_data ctx).1.status = ("error") ∧
    (execute_variable codec now node_data ctx).2 = ctx := by
  simp only [List.mem_cons, List.not_mem_nil, or_false, not_or] at h
  obtain ⟨h1, h2, h3, h4, h5, h6, h7, h8, h9, h10, h11⟩ := h
  simp [execute_variable, h1, h2, h3, h4, h5, h6, h7, h8, h9, h10, h11, errorEnvelope]

theorem execute_math_expression_error (parse : String → Option PyExpr) (now : ClockStrings)
    (node_data : List (String × PyValue)) (ctx : WorkflowContext) (s : String)
    (tree : PyExpr) (err : EvalErr)
    (hexpr : pyTruthy (pyDictGetD node_data ("expression") (.str (""))) = true)
    (hinterp : interpolateValue ctx now (pyDictGetD node_data ("expression") (.str (""))) = .str s)
    (hclean : pyStrip s ≠ (""))
    (hparse : parse (pyStrip s) = some tree)
    (heval : _safe_eval_math tree = .error err) :
    (execute_math_expression parse now node_data ctx).1.status = ("error") ∧
    (execute_math_expression parse now node_data ctx).2 = ctx := by
  simp only [execute_math_expression, hexpr, hinterp, hclean, hparse, heval]
  simp [errorEnvelope]




/-- C5: handler-level errors are local.  With handlers that return envelopes
rather than raising, a traversal started at depth 0 with the canonical fuel
can only complete or fail with the depth/visit limits; edge selection is
independent of the result status (an error envelope without a condition
routes exactly like a success); the listed input-validation failures —
unknown variable operation, unsupported or invalid math, unknown strategy —
produce `status:"error"` envelopes without touching the context or raising;
and on the concrete graph whose middle handler errors, the downstream node
is still visited exactly once. -/
theorem C5_handler_errors_local :
    (∀ (d : Dispatch) (nodes : List Node) (edges : List Edge),
       (∀ node ctx, ∃ p, d node ctx = .ok p) →
       ∀ (nid : String) (st : TravState),
         (∃ st2, run_node_chain d nodes edges nid st = .ok st2) ∨
         run_node_chain d nodes edges nid st = .error .depthExceeded ∨
         run_node_chain d nodes edges nid st = .error .visitsExceeded) ∧
    (∀ (nid : String) (env : Envelope) (ctx : WorkflowContext) (edges : List Edge),
       env.condition = Option.none →
       apply_condition_routing nid (some env) ctx edges = (ctx, edges)) ∧
    (∀ (nid : String) (env env' : Envelope) (ctx : WorkflowContext) (edges : List Edge),
       env.condition = env'.condition →
       apply_condition_routing nid (some env) ctx edges =
         apply_condition_routing nid (some env') ctx edges) ∧
    (∀ (codec : JsonCodec) (now : ClockStrings) (node_data : List (String × PyValue))
       (ctx : WorkflowContext),
       keyOf (pyDictGetD node_data ("operation") (.str ("set"))) ∉
         [("set"), ("get"), ("add"), ("subtract"), ("multiply"), ("divide"),
          ("increment"), ("decrement"), ("append"), ("parse_json"), ("stringify")] →
       (execute_variable codec now node_data ctx).1.status = ("error") ∧
       (execute_variable codec now node_data ctx).2 = ctx) ∧
    (∀ (parse : String → Option PyExpr) (now : ClockStrings)
       (node_data : List (String × PyValue)) (ctx : WorkflowContext) (s : String)
       (tree : PyExpr) (err : EvalErr),
       pyTruthy (pyDictGetD node_data ("expression") (.str (""))) = true →
       interpolateValue ctx now (pyDictGetD node_data ("expression") (.str (""))) = .str s →
       pyStrip s ≠ ("") →
       parse (pyStrip s) = some tree →
       _safe_eval_math tree = .error err →
       (execute_math_expression parse now node_data ctx).1.status = ("error") ∧
       (execute_math_expression parse now node_data ctx).2 = ctx) ∧
    (∀ (underlying strategy action : String) (quantity : Int) (expiry product pt : String),
       (∀ (a : String) (q : Int) (e p pt2 : String),
          _build_strategy_legs strategy a q e p pt2 = []) →
       execute_options_multi_order_plan underlying strategy action quantity (some expiry)
           product pt = .error (("Unknown strategy: ") ++ strategy)) ∧
    (run_node_chain dispatchMidError nodesMidError edgesMidError ("S") initTravState).map
        (fun st => (getVisit st.visited_count ("T"), visitTotal st.visited_count)) =
      .ok (1, 3) := by
  refine ⟨?noraise, apply_condition_routing_no_condition, apply_condition_routing_ignores_status,
          execute_variable_unknown_op, execute_math_expression_error, ?unknown, by decide⟩
  case noraise =>
    intro d nodes edges hnr nid st
    exact execute_node_chain_no_raise d nodes edges hnr (MAX_NODE_DEPTH + 2) nid 0 st
      (by simp [MAX_NODE_DEPTH]) (by simp)
  case unknown =>
    intro underlying strategy action quantity expiry product pt hbuild
    simp [execute_options_multi_order_plan, hbuild]

/-- C5 witness: the conjuncts at concrete inputs. -/
theorem C5_witness :
    ((∃ st2, run_node_chain dispatchAlwaysTrue nodesYesNo edgesYesNo ("S") initTravState =
        .ok st2) ∨
     run_node_chain dispatchAlwaysTrue nodesYesNo edgesYesNo ("S") initTravState =
       .error .depthExceeded ∨
     run_node_chain dispatchAlwaysTrue nodesYesNo edgesYesNo ("S") initTravState =
       .error .visitsExceeded) ∧
    apply_condition_routing ("E") (some (errorEnvelope ("boom"))) WorkflowContext.init
        edgesMidError = (WorkflowContext.init, edgesMidError) ∧
    ((execute_variable nullCodec sampleClock [(("operation"), .str ("frobnicate"))]
        WorkflowContext.init).1.status = ("error") ∧
     (execute_variable nullCodec sampleClock [(("operation"), .str ("frobnicate"))]
        WorkflowContext.init).2 = WorkflowContext.init) ∧
    ((execute_math_expression (fun _ => some (.name ("x"))) sampleClock
        [(("expression"), .str ("x + 1"))] WorkflowContext.init).1.status = ("error") ∧
     (execute_math_expression (fun _ => some (.name ("x"))) sampleClock
        [(("expression"), .str ("x + 1"))] WorkflowContext.init).2 = WorkflowContext.init) ∧
    execute_options_multi_order_plan ("NIFTY") ("nope") ("SELL") 1 (some ("10OCT26"))
        ("NRML") ("MARKET") = .error (("Unknown strategy: ") ++ ("nope")) := by
  refine ⟨?tri, ?routing, ?unknownop, ?math, ?strategy⟩
  case tri =>
    exact C5_handler_errors_local.1 dispatchAlwaysTrue nodesYesNo edgesYesNo
      (by
        intro node ctx
        unfold dispatchAlwaysTrue
        split_ifs <;> exact ⟨_, rfl⟩)
      ("S") initTravState
  case routing =>
    exact C5_handler_errors_local.2.1 ("E") (errorEnvelope ("boom")) WorkflowContext.init
      edgesMidError rfl
  case unknownop =>
    exact C5_handler_errors_local.2.2.2.1 nullCodec sampleClock
      [(("operation"), .str ("frobnicate"))] WorkflowContext.init (by decide)
  case math =>
    exact C5_handler_errors_local.2.2.2.2.1 (fun _ => some (.name ("x"))) sampleClock
      [(("expression"), .str ("x + 1"))] WorkflowContext.init ("x + 1") (.name ("x"))
      EvalErr.unsupportedType (by decide) (by rfl) (by decide) (by rfl) (by rfl)
  case strategy =>
    exact C5_handler_errors_local.2.2.2.2.2.1 ("NIFTY") ("nope") ("SELL") 1 ("10OCT26")
      ("NRML") ("MARKET") (fun a q e p pt2 => rfl)

/-- C1: if the per-workflow lock is already held, `execute_workflow` returns
immediately with a `status:"error"` envelope carrying `already_running:true`
and no execution id, and the state — locks and execution rows alike — is
completely untouched (nothing is queued, no record is created).  When the
lock is free and the workflow exists, by contrast, exactly one execution
row is appended. -/
theorem C1_single_flight :
    (∀ (dispatch : Dispatch) (workflows : List (Int × WorkflowDef)) (client_available : Bool)
       (workflow_id : Int) (webhook : Option PyValue) (st : OrchState),
       (st.locks.lookup workflow_id).getD false = true →
       (execute_workflow dispatch workflows client_available workflow_id webhook st).1.status =
         ("error") ∧
       (execute_workflow dispatch workflows client_available workflow_id webhook st).1.already_running =
         true ∧
       (execute_workflow dispatch workflows client_available workflow_id webhook st).1.execution_id =
         Option.none ∧
       (execute_workflow dispatch workflows client_available workflow_id webhook st).2 = st) ∧
    (∀ (dispatch : Dispatch) (workflows : List (Int × WorkflowDef)) (client_available : Bool)
       (workflow_id : Int) (webhook : Option PyValue) (st : OrchState) (wf : WorkflowDef),
       (st.locks.lookup workflow_id).getD false = false →
       workflows.lookup workflow_id = some wf →
       (execute_workflow dispatch workflows client_available workflow_id webhook st).2.executions.length =
         st.executions.length + 1) := by
  constructor
  · intro dispatch workflows client_available workflow_id webhook st hlock
    simp [execute_workflow, hlock]
  · intro dispatch workflows client_available workflow_id webhook st wf hlock hwf
    simp only [execute_workflow, hlock, Bool.false_eq_true, if_false, hwf]
    split_ifs
    · simp
    · cases hfind : wf.nodes.find? (fun n => n.type == ("start")) with
      | none => simp
      | some start_node =>
        simp only
        cases hrun : run_node_chain dispatch wf.nodes wf.edges start_node.id
            ⟨[], (match webhook with
                  | some d => WorkflowContext.init.set_variable ("webhook") d
                  | Option.none => WorkflowContext.init),
             [(("info"), ("Starting workflow: ") ++ wf.name)]⟩ with
        | ok stF => simp [hrun]
        | error err => simp [hrun]


/-- C1 witness: the single-flight guard at concrete inputs. -/
theorem C1_witness :
    ((execute_workflow dispatchAlwaysTrue [] false 7 Option.none
        (⟨[(7, true)], []⟩ : OrchState)).1.status = ("error") ∧
     (execute_workflow dispatchAlwaysTrue [] false 7 Option.none
        (⟨[(7, true)], []⟩ : OrchState)).1.already_running = true ∧
     (execute_workflow dispatchAlwaysTrue [] false 7 Option.none
        (⟨[(7, true)], []⟩ : OrchState)).1.execution_id = Option.none ∧
     (execute_workflow dispatchAlwaysTrue [] false 7 Option.none
        (⟨[(7, true)], []⟩ : OrchState)).2 = (⟨[(7, true)], []⟩ : OrchState)) ∧
    (execute_workflow dispatchAlwaysTrue [(7, wfSimple)] true 7 Option.none
        (⟨[], []⟩ : OrchState)).2.executions.length = ([] : List ExecRecord).length + 1 := by
  constructor
  · exact C1_single_flight.1 dispatchAlwaysTrue [] false 7 Option.none _ rfl
  · exact C1_single_flight.2 dispatchAlwaysTrue [(7, wfSimple)] true 7 Option.none
      (⟨[], []⟩ : OrchState) wfSimple rfl rfl
